import Mathlib

/-!
# Verification of the dependency-analysis-toolkit core

Shallow embedding, in Lean 4, of the algorithmic core of the
dependency-analysis-toolkit repository (three analysis lambda packages:
`dependency-analysis`, `minimal-dependency-finder`,
`missing-component-analysis`), together with theorems settling the
specification claims about it.

Modelling conventions, used throughout:
* Python `dict`s are modelled as association lists (`List (String × α)`)
  with first-match lookup (`dlookup`), in-place value overwrite that keeps
  the key's original position (`dupsert`), and append for fresh keys —
  matching CPython's insertion-ordered dictionaries.
* Python `set`s are modelled as duplicate-free lists in insertion order:
  `set.add` is `sinsert`, `set.update` is `sunion`.  Set iteration order in
  CPython is unspecified; iterating our model's insertion order is one
  deterministic refinement of it.  Every claim proved below about data
  derived from set iteration depends only on the set's membership, not on
  the chosen order.
* Python `float` weights and scores are modelled as exact rationals (ℚ);
  float rounding is not modelled (no claim depends on it).
* Recursive functions whose Python termination argument is "the visited
  set grows inside a finite key set" are written with an explicit fuel
  argument plus a proved fuel-sufficiency (stabilisation) lemma, giving a
  total function that provably satisfies the source's recursion equation.
* External collaborators (S3 downloads, `json.loads`, `base64.b64decode`)
  are oracle parameters: functions returning `Except`/`Option`, as the
  spec places them outside the core at its boundary.
-/

namespace DAT

/-- First-match lookup in an association list: Python `d[k]` / `d.get(k)`. -/
def dlookup {α : Type} : List (String × α) → String → Option α
  | [], _ => none
  | (k2, v) :: rest, k => if k2 = k then some v else dlookup rest k

/-- Python `d[k] = v` on an insertion-ordered dict: overwrite in place if the
key is present (keeping its position), else append. -/
def dupsert {α : Type} : List (String × α) → String → α → List (String × α)
  | [], k, v => [(k, v)]
  | (k2, w) :: rest, k, v =>
    if k2 = k then (k2, v) :: rest else (k2, w) :: dupsert rest k v

/-- Python `set.add`: append the element unless already present. -/
def sinsert (s : List String) (x : String) : List String :=
  if x ∈ s then s else s ++ [x]

/-- Python `set.update`: add every element of `t` in order. -/
def sunion (s t : List String) : List String :=
  t.foldl sinsert s

/-- Substring test (Python `needle in hay` on strings). -/
def strContains (hay needle : String) : Bool :=
  hay.data.tails.any (fun t => needle.data.isPrefixOf t)

/-- A dependency edge record as it appears in the component JSON:
`{name, dependencyType}`. -/
structure Dep where
  name : String
  depType : String
deriving DecidableEq, Repr

/-- A component record: `{name, type, path, dependencies}`. -/
structure Component where
  name : String
  type : String
  path : String
  dependencies : List Dep
deriving DecidableEq, Repr

/-- The dependency graph: component name → ordered list of dependency
target names (`graph` in both `dependency-analysis` and
`minimal-dependency-finder`). -/
abbrev GraphL := List (String × List String)

/-- The component index: name → component record (`components` dict). -/
abbrev CompDict := List (String × Component)

/-- Graph construction, lines 94-97 of `dependency-analysis` (identical in
`minimal-dependency-finder`, lines 340-343): one pass over the records,
last record wins on duplicate names. -/
def buildGraph (data : List Component) : GraphL :=
  data.foldl (fun g item => dupsert g item.name (item.dependencies.map Dep.name)) []

/-- Component-index construction (same pass as `buildGraph`). -/
def buildComponents (data : List Component) : CompDict :=
  data.foldl (fun c item => dupsert c item.name item) []

/-- The distinct keys of the graph dict. -/
def gKeys (g : GraphL) : List String :=
  (g.map Prod.fst).dedup

/-- The direct-dependency list of a node (`graph[start]`, empty when the
name is not a key). -/
def directDeps (g : GraphL) (s : String) : List String :=
  (dlookup g s).getD []

/-- The edge relation of the graph: `b` appears in `a`'s adjacency list. -/
def edgeRel (g : GraphL) (a b : String) : Prop :=
  b ∈ directDeps g a

instance (g : GraphL) (a b : String) : Decidable (edgeRel g a b) :=
  inferInstanceAs (Decidable (b ∈ directDeps g a))

/-- `get_all_transitive_dependencies` with an explicit fuel argument.  The
body is a direct transliteration of lines 372-386 of `dependency-analysis`
(= lines 633-648 of `minimal-dependency-finder`): if `start` is visited or
not a key, return the empty set; otherwise mark `start` visited and, for
each direct dependency in order, add it and the recursive closure computed
with a per-branch copy of the (extended) visited set — `visited.copy()` in
the source, immutable value passing here. -/
def gatdF : Nat → GraphL → String → List String → List String
  | 0, _, _, _ => []
  | f + 1, g, start, visited =>
    if start ∈ visited then []
    else
      match dlookup g start with
      | none => []
      | some deps =>
        deps.foldl (fun acc dep => sunion (sinsert acc dep) (gatdF f g dep (sinsert visited start))) []

/-- The number of graph keys not yet visited (the quantity that strictly
decreases across the recursive calls of
`get_all_transitive_dependencies`). -/
def unvisitedCount (g : GraphL) (visited : List String) : Nat :=
  ((gKeys g).filter (fun k => k ∉ visited)).length

/-- Fuel that always suffices: one more than the number of unvisited keys. -/
def gatdFuel (g : GraphL) (visited : List String) : Nat :=
  unvisitedCount g visited + 1

/-- `get_all_transitive_dependencies(start, graph, visited)`: the total
function obtained by running `gatdF` with sufficient fuel.
`gatd_unfold` below proves it satisfies the source's recursion equation. -/
def get_all_transitive_dependencies (g : GraphL) (start : String) (visited : List String) : List String :=
  gatdF (gatdFuel g visited) g start visited

/-- `transitiveClosure(start)`: the closure as called at every call site of
the source (`visited=None`, i.e. the empty visited set). -/
def transitiveClosure (g : GraphL) (start : String) : List String :=
  get_all_transitive_dependencies g start []

/-- A graph is acyclic when no node reaches itself along one or more
dependency edges. -/
def Acyclic (g : GraphL) : Prop :=
  ∀ n, ¬ Relation.TransGen (edgeRel g) n n

/-- A list of nodes forms a path of dependency edges: each consecutive
pair is an edge of the graph. -/
def IsEdgePath (g : GraphL) : List String → Prop
  | [] => True
  | [_] => True
  | a :: b :: t => edgeRel g a b ∧ IsEdgePath g (b :: t)

instance instDecIsEdgePath (g : GraphL) : (l : List String) → Decidable (IsEdgePath g l)
  | [] => inferInstanceAs (Decidable True)
  | [_] => inferInstanceAs (Decidable True)
  | _ :: b :: t =>
    have : Decidable (IsEdgePath g (b :: t)) := instDecIsEdgePath g (b :: t)
    inferInstanceAs (Decidable (_ ∧ _))

/-- Component-type lookup with `'Unknown'` fallback:
`components.get(comp, {}).get('type', 'Unknown')`. -/
def compTypeOrUnknown (comps : CompDict) (c : String) : String :=
  ((dlookup comps c).map Component.type).getD "Unknown"

/-- One emitted chain record of `get_dependency_chains` (lines 398-405 of
`dependency-analysis`). -/
structure ChainRec where
  chain : List String
  depth : Nat
  direction : String
  source : String
  chain_types : List String
deriving DecidableEq, Repr

/-- `get_dependency_chains`, recursion written on the fuel
`max_depth - len(current_chain)` (the source returns `[]` as soon as
`len(current_chain) >= max_depth`, so that quantity strictly decreases and
is the exact remaining budget). -/
def get_dependency_chains_aux (g : GraphL) (comps : CompDict) : Nat → List String → String → List ChainRec
  | 0, _, _ => []
  | fuel + 1, currentChain, start =>
    match dlookup g start with
    | none => []
    | some deps =>
      deps.flatMap (fun dep =>
        let newChain := currentChain ++ [dep]
        { chain := newChain
          depth := newChain.length - 1
          direction := "FROM_SOURCE"
          source := currentChain.headD ""
          chain_types := newChain.map (compTypeOrUnknown comps) }
        :: get_dependency_chains_aux g comps fuel newChain dep)

/-- `get_dependency_chains(start, graph, components, max_depth)` as called
from the analysis (initial chain `[start]`). -/
def get_dependency_chains (g : GraphL) (comps : CompDict) (start : String) (max_depth : Nat) : List ChainRec :=
  get_dependency_chains_aux g comps (max_depth - 1) [start] start

/-! ## Weight configuration (`minimal-dependency-finder`, lines 19-84) -/

/-- The five named scoring coefficients of the `scoring_multipliers`
section.  The source keeps them in a dict, but only ever reads these five
keys, which the merge in `parse_component_weights` guarantees present. -/
structure Multipliers where
  priority_weight : ℚ
  medium_weight : ℚ
  missing_priority_penalty : ℚ
  missing_medium_penalty : ℚ
  cics_complexity_factor : ℚ
deriving DecidableEq, Repr

/-- A full weight configuration: the three sections of §3 of the spec. -/
structure WeightsConfig where
  priority_types : List (String × ℚ)
  medium_types : List (String × ℚ)
  scoring_multipliers : Multipliers
deriving DecidableEq, Repr

/-- The built-in `default_config` of `parse_component_weights`
(lines 27-57). -/
def defaultConfig : WeightsConfig :=
  { priority_types :=
      [("JCL", 1), ("COB", 1), ("COBOL", 1), ("CPY", 1), ("BMS", 1),
       ("TRANSACTION", 1), ("CICS_FILE", 1), ("CSDCOMMAND", 1),
       ("COMMAREA", 1), ("MAPSET", 1)]
    medium_types :=
      [("Missing Database Object", 7/10), ("Missing Dataset", 7/10),
       ("DATASET", 7/10), ("VSAM KSDS DATASET", 7/10), ("PS", 7/10),
       ("txt", 7/10), ("CTL", 7/10), ("PROC", 7/10)]
    scoring_multipliers :=
      { priority_weight := 1
        medium_weight := 7/10
        missing_priority_penalty := 2
        missing_medium_penalty := 14/10
        cics_complexity_factor := 1/2 } }

/-- The `scoring_multipliers` section of an externally supplied
configuration: each of the five keys may or may not be supplied
(`dict.update` merges the supplied keys over the defaults key by key). -/
structure MultipliersOverride where
  priority_weight : Option ℚ
  medium_weight : Option ℚ
  missing_priority_penalty : Option ℚ
  missing_medium_penalty : Option ℚ
  cics_complexity_factor : Option ℚ
deriving DecidableEq, Repr

/-- An externally supplied `COMPONENT_WEIGHTS` document: any of the three
sections may be absent. -/
structure EnvWeights where
  priority_types : Option (List (String × ℚ))
  medium_types : Option (List (String × ℚ))
  scoring_multipliers : Option MultipliersOverride
deriving DecidableEq, Repr

/-- `config['scoring_multipliers'].update(env_config['scoring_multipliers'])`:
every supplied coefficient replaces the default one, every unsupplied
coefficient keeps its default. -/
def applyMultipliersOverride (base : Multipliers) (o : MultipliersOverride) : Multipliers :=
  { priority_weight := o.priority_weight.getD base.priority_weight
    medium_weight := o.medium_weight.getD base.medium_weight
    missing_priority_penalty := o.missing_priority_penalty.getD base.missing_priority_penalty
    missing_medium_penalty := o.missing_medium_penalty.getD base.missing_medium_penalty
    cics_complexity_factor := o.cics_complexity_factor.getD base.cics_complexity_factor }

/-- `parse_component_weights` (lines 19-84): `none` models both an unset
`COMPONENT_WEIGHTS` environment variable and one that fails to parse as
JSON (both fall back to the full defaults).  A present `priority_types` or
`medium_types` section replaces the default section wholesale; a present
`scoring_multipliers` section is merged key by key. -/
def parse_component_weights (env : Option EnvWeights) : WeightsConfig :=
  match env with
  | none => defaultConfig
  | some e =>
    { priority_types := e.priority_types.getD defaultConfig.priority_types
      medium_types := e.medium_types.getD defaultConfig.medium_types
      scoring_multipliers :=
        match e.scoring_multipliers with
        | none => defaultConfig.scoring_multipliers
        | some o => applyMultipliersOverride defaultConfig.scoring_multipliers o }

/-- The hard-coded ignored-type table of
`get_component_priority_weight_local` (lines 301-312). -/
def ignored_types : List (String × ℚ) :=
  [("FILE_DEFINITION", 0), ("Missing Source File", 0), ("System", 0),
   ("Symbolic parameter", 0), ("Unknown", 0), ("md", 0), ("drawio", 0),
   ("zip", 0), ("INIT", 0), ("LISTCAT", 0)]

/-- `get_component_priority_weight_local` (lines 286-323): priority
section, else medium section, else ignored table, else default `0.3`. -/
def get_component_priority_weight_local (component_type : String) (config : WeightsConfig) : ℚ :=
  match dlookup config.priority_types component_type with
  | some w => w
  | none =>
    match dlookup config.medium_types component_type with
    | some w => w
    | none =>
      match dlookup ignored_types component_type with
      | some w => w
      | none => 3/10

/-! ## Minimal-dependency-finder core (lines 184-685) -/

/-- One row of the missing-components CSV after splitting the
comma-joined `Parents` column into tokens (the source strips each token
and skips empty ones; tokens here are taken as already stripped). -/
structure MissingRow where
  Name : String
  «Type» : String
  Parents : List String
deriving DecidableEq, Repr

/-- One entry of the `missing_by_parent` table (lines 360-364). -/
structure MissingEntry where
  name : String
  type : String
  priority_weight : ℚ
deriving DecidableEq, Repr

/-- The `missing_by_parent` dict: parent name → list of missing records. -/
abbrev MBP := List (String × List MissingEntry)

/-- Append an entry to `mbp[parent]`, creating the key if absent. -/
def mbpAppend (mbp : MBP) (parent : String) (e : MissingEntry) : MBP :=
  match dlookup mbp parent with
  | some l => dupsert mbp parent (l ++ [e])
  | none => mbp ++ [(parent, [e])]

/-- Building `missing_by_parent` (lines 351-364): for each row, for each
non-empty parent token, append a record carrying the row's type weight. -/
def build_missing_by_parent (rows : List MissingRow) (cfg : WeightsConfig) : MBP :=
  rows.foldl
    (fun mbp row =>
      row.Parents.foldl
        (fun mbp parent =>
          if parent = "" then mbp
          else mbpAppend mbp parent
            { name := row.Name, type := row.«Type»,
              priority_weight := get_component_priority_weight_local row.«Type» cfg })
        mbp)
    []

/-- One row of the optional CSD (transaction table) CSV. -/
structure CsdRow where
  Transaction : String
  Program : String
  Description : String
deriving DecidableEq, Repr

/-- One value of the transaction-to-program mapping (lines 488-492). -/
structure TxInfo where
  program : String
  description : String
  type : String
deriving DecidableEq, Repr

/-- `build_transaction_mapping` (lines 477-494): rows with truthy
(non-empty) `Transaction` and `Program` are entered, last row wins on a
repeated transaction name. -/
def build_transaction_mapping (rows : List CsdRow) : List (String × TxInfo) :=
  rows.foldl
    (fun m row =>
      if row.Transaction ≠ "" ∧ row.Program ≠ "" then
        dupsert m row.Transaction
          { program := row.Program, description := row.Description,
            type := "CICS_Transaction" }
      else m)
    []

/-- `is_entry_point_accurate` (lines 452-463). -/
def is_entry_point_accurate (component_type : String) (entry_point_types : List String) : Bool :=
  if component_type ∈ entry_point_types then true
  else if (("CICS" ∈ entry_point_types) ∨ ("TRANSACTION" ∈ entry_point_types) ∨
           ("BMS" ∈ entry_point_types)) ∧
          component_type ∈ ["TRANSACTION", "BMS", "CICS_FILE"] then true
  else false

/-- `categorize_entry_point_accurate` (lines 465-475). -/
def categorize_entry_point_accurate (component_type : String) : String :=
  if component_type ∈ ["JCL", "PROC"] then "Batch"
  else if component_type ∈ ["TRANSACTION", "BMS", "CICS_FILE", "CSDCOMMAND"] then "Online"
  else "Unknown"

/-- The fixed target-type table of `get_target_execution` (lines 592-596). -/
def target_component_types (target_type : String) : List String :=
  if target_type = "application_program" then ["COB", "COBOL"]
  else if target_type = "database_reference" then
    ["[SQL]TABLE", "[SQL]CURSOR", "Missing Database Object"]
  else if target_type = "vsam_reference" then
    ["VSAM KSDS DATASET", "CICS_FILE", "DATASET"]
  else []

/-- One `execution_details` record. -/
structure ExecDetail where
  component : String
  type : String
  access_level : String
deriving DecidableEq, Repr

/-- Result of `get_target_execution`. -/
structure TargetExecution where
  executes_target : Bool
  executed_components : List String
  execution_details : List ExecDetail
deriving DecidableEq, Repr

/-- `get_target_execution` (lines 585-631): direct dependencies whose type
is in the target set are tagged `Direct` (in adjacency-list order); then
every not-yet-recorded member of the transitive closure with a matching
type is tagged `Transitive` (in set-iteration order). -/
def get_target_execution (entry_point : String) (g : GraphL) (comps : CompDict) (target_type : String) : TargetExecution :=
  let all_deps := get_all_transitive_dependencies g entry_point []
  let tts := target_component_types target_type
  let direct :=
    (directDeps g entry_point).foldl
      (fun (st : List String × List ExecDetail) dep_name =>
        match dlookup comps dep_name with
        | none => st
        | some i =>
          if i.type ∈ tts then
            (st.1 ++ [dep_name], st.2 ++ [⟨dep_name, i.type, "Direct"⟩])
          else st)
      ([], [])
  let both :=
    all_deps.foldl
      (fun (st : List String × List ExecDetail) dep_name =>
        match dlookup comps dep_name with
        | none => st
        | some i =>
          if dep_name ∉ st.1 ∧ i.type ∈ tts then
            (st.1 ++ [dep_name], st.2 ++ [⟨dep_name, i.type, "Transitive"⟩])
          else st)
      direct
  { executes_target := both.1.length > 0
    executed_components := both.1
    execution_details := both.2 }

/-- The four pattern counters of `analyze_functionality_pattern`. -/
structure FunctionalityPattern where
  data_heavy : ℕ
  screen_heavy : ℕ
  program_heavy : ℕ
  navigation : ℕ
deriving DecidableEq, Repr

/-- The bucket a single dependency falls into (the if/elif chain of
lines 248-261), if any. -/
def patternBucket (comps : CompDict) (dep_name : String) : Option (Fin 4) :=
  match dlookup comps dep_name with
  | none => none
  | some i =>
    if i.type ∈ ["CICS_FILE", "DATASET", "VSAM KSDS DATASET", "PS"] then some 0
    else if i.type ∈ ["BMS", "MAPSET"] then some 1
    else if i.type ∈ ["COB", "COBOL"] then some 2
    else if strContains dep_name.toUpper "MENU" ∨ strContains dep_name.toUpper "NAV" then some 3
    else none

/-- `analyze_functionality_pattern` (lines 239-263): counts per bucket over
the transitive-dependency set (counting is order-independent). -/
def analyze_functionality_pattern (all_deps : List String) (comps : CompDict) : FunctionalityPattern :=
  { data_heavy := (all_deps.filter (fun d => patternBucket comps d = some 0)).length
    screen_heavy := (all_deps.filter (fun d => patternBucket comps d = some 1)).length
    program_heavy := (all_deps.filter (fun d => patternBucket comps d = some 2)).length
    navigation := (all_deps.filter (fun d => patternBucket comps d = some 3)).length }

/-- `classify_functionality` (lines 265-284): the dominant bucket, ties
broken by the dict insertion order data/screen/program/navigation
(CPython `max` returns the first maximal key). -/
def classify_functionality (p : FunctionalityPattern) : String × String :=
  if p.data_heavy + p.screen_heavy + p.program_heavy + p.navigation = 0 then
    ("Simple", "simple")
  else
    let m := max p.data_heavy (max p.screen_heavy (max p.program_heavy p.navigation))
    if p.data_heavy = m then ("Data Processing", "data_heavy")
    else if p.screen_heavy = m then ("User Interface", "screen_heavy")
    else if p.program_heavy = m then ("Business Logic", "program_heavy")
    else ("Navigation/Menu", "navigation")

/-- The record returned by `calculate_prioritized_scores_cics_enhanced`
(lines 566-583). -/
structure ScoreOut where
  total_dependencies : ℕ
  priority_dependencies : ℕ
  medium_dependencies : ℕ
  ignored_dependencies : ℕ
  missing_priority_count : ℕ
  missing_medium_count : ℕ
  weighted_complexity_score : ℚ
  cics_complexity_factor : ℚ
  priority_missing_details : List MissingEntry
  medium_missing_details : List MissingEntry
  functionality_primary : String
  functionality_dominant : String
  pattern_breakdown : FunctionalityPattern
deriving DecidableEq, Repr

/-- `calculate_prioritized_scores_cics_enhanced` (lines 496-583).

The function returns the score record TOGETHER WITH the (possibly
modified) `missing_by_parent` table: line 538 of the source binds
`missing_components = missing_by_parent.get(comp_name, [])`, which for a
`comp_name` present in the table is an alias of the stored list, and
line 545 `missing_components.extend(...)` then mutates that stored list in
place.  The fold below threads the table and performs exactly that write
(`aliased` is true iff `comp_name` is a key), including the case where the
loop later reads back an entry it has itself extended. -/
def calculate_prioritized_scores_cics_enhanced (comp_name : String) (g : GraphL) (comps : CompDict) (mbp : MBP) (tm : List (String × TxInfo)) (cfg : WeightsConfig) : ScoreOut × MBP :=
  let all_deps := get_all_transitive_dependencies g comp_name []
  let patterns := analyze_functionality_pattern all_deps comps
  let fc := classify_functionality patterns
  let pw := cfg.scoring_multipliers.priority_weight
  let mw := cfg.scoring_multipliers.medium_weight
  let priority_deps := all_deps.filter (fun d =>
    match dlookup comps d with
    | some i => get_component_priority_weight_local i.type cfg = pw
    | none => false)
  let medium_deps := all_deps.filter (fun d =>
    match dlookup comps d with
    | some i => get_component_priority_weight_local i.type cfg ≠ pw ∧
                get_component_priority_weight_local i.type cfg = mw
    | none => false)
  let ignored_deps := all_deps.filter (fun d =>
    match dlookup comps d with
    | some i => get_component_priority_weight_local i.type cfg ≠ pw ∧
                get_component_priority_weight_local i.type cfg ≠ mw
    | none => true)
  let aliased := (dlookup mbp comp_name).isSome
  let missing0 := (dlookup mbp comp_name).getD []
  let step :=
    if (dlookup g comp_name).isSome then
      all_deps.foldl
        (fun (st : List MissingEntry × MBP) dep_name =>
          match dlookup st.2 dep_name with
          | none => st
          | some l =>
            let m2 := st.1 ++ l
            (m2, if aliased then dupsert st.2 comp_name m2 else st.2))
        (missing0, mbp)
    else (missing0, mbp)
  let missing_components := step.1
  let priority_missing := missing_components.filter (fun e => e.priority_weight = pw)
  let medium_missing := missing_components.filter (fun e => e.priority_weight = mw)
  let cics : ℚ :=
    if (dlookup tm comp_name).isSome then 5
    else
      match dlookup comps comp_name with
      | some i => if i.type ∈ ["TRANSACTION", "BMS", "CICS_FILE"] then 3 else 0
      | none => 0
  let weighted_score :=
    (priority_deps.length : ℚ) * cfg.scoring_multipliers.priority_weight +
    (medium_deps.length : ℚ) * cfg.scoring_multipliers.medium_weight +
    (priority_missing.length : ℚ) * cfg.scoring_multipliers.missing_priority_penalty +
    (medium_missing.length : ℚ) * cfg.scoring_multipliers.missing_medium_penalty +
    cics * cfg.scoring_multipliers.cics_complexity_factor
  ({ total_dependencies := all_deps.length
     priority_dependencies := priority_deps.length
     medium_dependencies := medium_deps.length
     ignored_dependencies := ignored_deps.length
     missing_priority_count := priority_missing.length
     missing_medium_count := medium_missing.length
     weighted_complexity_score := weighted_score
     cics_complexity_factor := cics
     priority_missing_details := priority_missing.take 10
     medium_missing_details := medium_missing.take 10
     functionality_primary := fc.1
     functionality_dominant := fc.2
     pattern_breakdown := patterns }, step.2)

/-- One entry of `entry_point_candidates` (lines 383-402). -/
structure CandidateRec where
  component_name : String
  component_type : String
  component_path : String
  entry_point_category : String
  total_dependencies : ℕ
  priority_dependencies : ℕ
  medium_dependencies : ℕ
  ignored_dependencies : ℕ
  missing_priority_count : ℕ
  missing_medium_count : ℕ
  weighted_complexity_score : ℚ
  cics_complexity_factor : ℚ
  executes : List String
  execution_details : List ExecDetail
  priority_missing_components : List MissingEntry
  medium_missing_components : List MissingEntry
  transaction_mapping : Option TxInfo
  functionality_primary : String
  functionality_dominant : String
  pattern_breakdown : FunctionalityPattern
deriving DecidableEq, Repr

/-- The candidate loop of
`find_minimal_dependency_entry_points_cics_enhanced` (lines 367-402):
iterate the component index in insertion order; for each eligible entry
point that executes the target functionality, compute its scores — the
`missing_by_parent` table is threaded through because scoring mutates it
(see `calculate_prioritized_scores_cics_enhanced`). -/
def build_entry_point_candidates (comps : CompDict) (g : GraphL) (tm : List (String × TxInfo)) (cfg : WeightsConfig) (mbp0 : MBP) (target_type : String) (entry_point_types : List String) : List CandidateRec × MBP :=
  comps.foldl
    (fun (st : List CandidateRec × MBP) entry =>
      let comp_name := entry.1
      let comp_info := entry.2
      if is_entry_point_accurate comp_info.type entry_point_types then
        let te := get_target_execution comp_name g comps target_type
        if te.executes_target then
          let sc := calculate_prioritized_scores_cics_enhanced comp_name g comps st.2 tm cfg
          (st.1 ++
            [{ component_name := comp_name
               component_type := comp_info.type
               component_path := comp_info.path
               entry_point_category := categorize_entry_point_accurate comp_info.type
               total_dependencies := sc.1.total_dependencies
               priority_dependencies := sc.1.priority_dependencies
               medium_dependencies := sc.1.medium_dependencies
               ignored_dependencies := sc.1.ignored_dependencies
               missing_priority_count := sc.1.missing_priority_count
               missing_medium_count := sc.1.missing_medium_count
               weighted_complexity_score := sc.1.weighted_complexity_score
               cics_complexity_factor := sc.1.cics_complexity_factor
               executes := te.executed_components
               execution_details := te.execution_details
               priority_missing_components := sc.1.priority_missing_details
               medium_missing_components := sc.1.medium_missing_details
               transaction_mapping := dlookup tm comp_name
               functionality_primary := sc.1.functionality_primary
               functionality_dominant := sc.1.functionality_dominant
               pattern_breakdown := sc.1.pattern_breakdown }], sc.2)
        else st
      else st)
    ([], mbp0)

/-- The sort key relation of line 405: ascending weighted complexity
score. -/
def scoreLE (a b : CandidateRec) : Prop :=
  a.weighted_complexity_score ≤ b.weighted_complexity_score

instance : DecidableRel scoreLE := fun a b =>
  inferInstanceAs (Decidable (a.weighted_complexity_score ≤ b.weighted_complexity_score))

instance : IsTotal CandidateRec scoreLE :=
  ⟨fun a b => le_total a.weighted_complexity_score b.weighted_complexity_score⟩

instance : IsTrans CandidateRec scoreLE :=
  ⟨fun _ _ _ hab hbc => le_trans hab hbc⟩

/-- Python list slicing `l[:n]` for an arbitrary integer bound. -/
def pyTake {α : Type} (l : List α) (n : ℤ) : List α :=
  if 0 ≤ n then l.take n.toNat else l.take (l.length - n.natAbs)

/-- A ranked output entry: the candidate record with its assigned
1-based rank. -/
structure RankedCandidate where
  cand : CandidateRec
  rank : ℕ
deriving DecidableEq, Repr

/-- Lines 404-412: sort the candidates by ascending weighted complexity
score (CPython `list.sort` is stable; a stable sort of a list is unique,
and `List.insertionSort` is stable, so it is the faithful model), truncate
to `max_results`, and assign ranks `1, 2, 3, ...` by `enumerate(_, 1)`. -/
def rank_stage (cands : List CandidateRec) (max_results : ℤ) : List RankedCandidate :=
  (List.enumFrom 1 (pyTake (List.insertionSort scoreLE cands) max_results)).map
    (fun p => { cand := p.2, rank := p.1 })

/-- One entry of the `cics_components` sample list (lines 217-222). -/
structure CicsComponentInfo where
  name : String
  type : String
  path : String
  dependencies_count : ℕ
deriving DecidableEq, Repr

/-- The result of `detect_cics_components_accurate` (lines 229-237).  The
`recommendation` f-string is deep-embedded as the CICS component count it
interpolates (`none` models the literal `None` emitted when the count is
zero); the two possible `analysis_scope` strings are kept verbatim. -/
structure CicsDetection where
  has_cics_components : Bool
  cics_component_count : ℕ
  cics_components : List CicsComponentInfo
  cics_by_type : List (String × ℕ)
  cics_types_detected : List String
  recommendation_count : Option ℕ
  analysis_scope : String
deriving DecidableEq, Repr

/-- The per-item CICS test of lines 205-214. -/
def isCicsItem (item : Component) : Bool :=
  if item.type ∈ ["TRANSACTION", "BMS", "CICS_FILE", "CSDCOMMAND"] then true
  else
    ["CICS", "DFHCOMMAREA", "COMMAREA", "MAPSET"].any (fun ind =>
      strContains item.name.toUpper ind.toUpper ∨ strContains item.type.toUpper ind.toUpper)

/-- `detect_cics_components_accurate` (lines 184-237). -/
def detect_cics_components_accurate (data : List Component) : CicsDetection :=
  let st :=
    data.foldl
      (fun (st : List CicsComponentInfo × List (String × ℕ)) item =>
        if isCicsItem item then
          (st.1 ++ [⟨item.name, item.type, item.path, item.dependencies.length⟩],
           dupsert st.2 item.type ((dlookup st.2 item.type).getD 0 + 1))
        else st)
      ([], [])
  { has_cics_components := st.1.length > 0
    cics_component_count := st.1.length
    cics_components := st.1.take 15
    cics_by_type := st.2
    cics_types_detected := st.2.map Prod.fst
    recommendation_count := if st.1.length > 0 then some st.1.length else none
    analysis_scope :=
      if st.1.length > 0 then "Hybrid batch/online environment detected"
      else "Batch-only environment" }

/-- Python `round(x, 1)` modelled as half-up rounding to one decimal place
(float banker's rounding on exact halves is presentational and not
modelled). -/
def round1 (q : ℚ) : ℚ :=
  (⌊q * 10 + 1/2⌋ : ℚ) / 10

/-- The `best_entry_point` sub-record of the analysis summary
(lines 668-677). -/
structure SummaryBest where
  name : String
  category : String
  weighted_complexity_score : ℚ
  priority_dependencies : ℕ
  medium_dependencies : ℕ
  missing_priority_components : ℕ
  missing_medium_components : ℕ
  executes_count : ℕ
deriving DecidableEq, Repr

/-- The four recommendation f-strings of lines 679-684, deep-embedded as
the data they interpolate. -/
inductive Recommendation where
  | startWith (name : String) (category : String) (score : ℚ)
  | focusPriorityDeps (n : ℕ)
  | addressMissing (nPriority nMedium : ℕ)
  | modernizationApproach (batchFirst : Bool)
deriving DecidableEq, Repr

/-- `generate_cics_enhanced_analysis_summary` output (lines 650-685): the
empty-candidate message branch or the full summary. -/
inductive AnalysisSummary where
  | noCandidates (target_type : String)
  | summary (total_candidates batch_candidates online_candidates : ℕ)
      (best : SummaryBest) (cics : CicsDetection) (recs : List Recommendation)
deriving DecidableEq, Repr

/-- `generate_cics_enhanced_analysis_summary` (lines 650-685); in the
source it receives the candidate list after the in-place sort of line 405,
so `best_candidate = candidates[0]` is the lowest-score candidate. -/
def generate_cics_enhanced_analysis_summary (candidates : List CandidateRec) (target_type : String) (cics : CicsDetection) : AnalysisSummary :=
  match candidates with
  | [] => .noCandidates target_type
  | best :: _ =>
    let batch := candidates.filter (fun c => c.entry_point_category = "Batch")
    let online := candidates.filter (fun c => c.entry_point_category = "Online")
    .summary candidates.length batch.length online.length
      { name := best.component_name
        category := best.entry_point_category
        weighted_complexity_score := round1 best.weighted_complexity_score
        priority_dependencies := best.priority_dependencies
        medium_dependencies := best.medium_dependencies
        missing_priority_components := best.missing_priority_count
        missing_medium_components := best.missing_medium_count
        executes_count := best.executes.length }
      cics
      [.startWith best.component_name best.entry_point_category best.weighted_complexity_score,
       .focusPriorityDeps best.priority_dependencies,
       .addressMissing best.missing_priority_count best.missing_medium_count,
       .modernizationApproach (best.entry_point_category = "Batch")]

/-- The `scoring_methodology` block (lines 434-442), deep-embedded as the
multiplier values its f-strings interpolate plus the configuration-source
flag. -/
structure ScoringMethodology where
  priority_weight : ℚ
  medium_weight : ℚ
  missing_priority_penalty : ℚ
  missing_medium_penalty : ℚ
  cics_complexity_factor : ℚ
  config_from_env : Bool
deriving DecidableEq, Repr

/-- The `search_criteria` block (lines 443-449). -/
structure SearchCriteria where
  target_type : String
  entry_point_types : List String
  total_candidates_found : ℕ
  results_returned : ℕ
  csd_provided : Bool
deriving DecidableEq, Repr

/-- The full result of
`find_minimal_dependency_entry_points_cics_enhanced` (lines 429-450). -/
structure MdfResults where
  ranked_entry_points : List RankedCandidate
  analysis_summary : AnalysisSummary
  cics_detection : CicsDetection
  component_weights : List (String × (ℚ × String))
  scoring_methodology : ScoringMethodology
  search_criteria : SearchCriteria
deriving DecidableEq, Repr

/-- The `component_weights` table for the agent (lines 418-427). -/
def buildComponentWeightsTable (cfg : WeightsConfig) : List (String × (ℚ × String)) :=
  let t1 := cfg.priority_types.foldl (fun t kv => dupsert t kv.1 (kv.2, "priority")) []
  let t2 := cfg.medium_types.foldl (fun t kv => dupsert t kv.1 (kv.2, "medium")) t1
  [("FILE_DEFINITION", (0 : ℚ)), ("Missing Source File", 0), ("System", 0),
   ("Symbolic parameter", 0), ("Unknown", 0)].foldl
    (fun t kv => dupsert t kv.1 (kv.2, "ignored")) t2

/-- `find_minimal_dependency_entry_points_cics_enhanced` (lines 325-450).
`cfg_from_env` mirrors the `os.environ.get('COMPONENT_WEIGHTS')` read of
line 441 (configuration is request-scoped per §5 of the spec). -/
def find_minimal_dependency_entry_points_cics_enhanced (data : List Component) (target_type : String) (entry_point_types : List String) (missing_rows : Option (List MissingRow)) (csd : Option (List CsdRow)) (max_results : ℤ) (cics : CicsDetection) (cfg : WeightsConfig) (cfg_from_env : Bool) : MdfResults :=
  let g := buildGraph data
  let comps := buildComponents data
  let tm := match csd with
    | some rows => build_transaction_mapping rows
    | none => []
  let mbp0 := match missing_rows with
    | some rows => build_missing_by_parent rows cfg
    | none => []
  let cands := (build_entry_point_candidates comps g tm cfg mbp0 target_type entry_point_types).1
  let sorted := List.insertionSort scoreLE cands
  let ranked := rank_stage cands max_results
  { ranked_entry_points := ranked
    analysis_summary := generate_cics_enhanced_analysis_summary sorted target_type cics
    cics_detection := cics
    component_weights := buildComponentWeightsTable cfg
    scoring_methodology :=
      { priority_weight := cfg.scoring_multipliers.priority_weight
        medium_weight := cfg.scoring_multipliers.medium_weight
        missing_priority_penalty := cfg.scoring_multipliers.missing_priority_penalty
        missing_medium_penalty := cfg.scoring_multipliers.missing_medium_penalty
        cics_complexity_factor := cfg.scoring_multipliers.cics_complexity_factor
        config_from_env := cfg_from_env }
    search_criteria :=
      { target_type := target_type
        entry_point_types := entry_point_types
        total_candidates_found := cands.length
        results_returned := ranked.length
        csd_provided := csd.isSome } }

/-! ## Lambda handler wrappers

All three analysis handlers share the same shape: decode a possibly
base64/JSON-encoded string event, unwrap Bedrock parameters, run the
analysis, and wrap everything in a `try/except` whose handler rebuilds a
Bedrock response by calling `event.get(...)`.  Exceptions are modelled
with `Except`: a handler result of `.error` means an exception escapes to
the Lambda runtime (the caller crashes).  `event.get` on a string raises
`AttributeError`, which is exactly what the model's
`create_bedrock_response` returns for a string event. -/

/-- A Python exception escaping a modelled computation. -/
inductive PyErr where
  | attributeError
  | jsonDecodeError
  | other (msg : String)
deriving DecidableEq, Repr

/-- The fields of a dict-shaped event that the handlers read: the optional
`actionGroup`/`function` keys and the extracted parameters (the Bedrock
`parameters`-list unwrapping of the source is an envelope transformation
and is modelled as already applied). -/
structure EventData (P : Type) where
  actionGroup : Option String
  function : Option String
  params : P
deriving DecidableEq, Repr

/-- A Lambda event: either a raw string (possibly base64- or JSON-encoded)
or an already-decoded dict. -/
inductive PyEvent (P : Type) where
  | str (s : String)
  | obj (d : EventData P)
deriving DecidableEq, Repr

/-- The uniform Bedrock response envelope (messageVersion "1.0",
`functionResponse.responseBody.TEXT.body = json.dumps(data)`); `body` is
the deep-embedded payload. -/
structure BedrockResponse (B : Type) where
  actionGroup : String
  function : String
  body : B
deriving DecidableEq, Repr

/-- `create_bedrock_response(event, data)` and the structurally identical
inline response builders: reads `event.get('actionGroup', dflt)` and
`event.get('function', dflt)` — which raises `AttributeError` when `event`
is still a string. -/
def create_bedrock_response {P B : Type} (dfltAg dfltFn : String) (e : PyEvent P) (data : B) : Except PyErr (BedrockResponse B) :=
  match e with
  | .str _ => .error .attributeError
  | .obj d => .ok { actionGroup := d.actionGroup.getD dfltAg, function := d.function.getD dfltFn, body := data }

/-- The string-event decoding step (lines 11-17 of each handler): try
base64-then-JSON, then plain JSON, else the `json.loads` exception
propagates to the outer `except`.  `b64` models
`json.loads(base64.b64decode(s).decode('utf-8'))` as a whole and `jsonp`
models `json.loads(s)`; both are stdlib collaborators supplied as
oracles. -/
def decode_event {P : Type} (b64 jsonp : String → Option (EventData P)) (e : PyEvent P) : Except PyErr (EventData P) :=
  match e with
  | .obj d => .ok d
  | .str s =>
    match b64 s with
    | some d => .ok d
    | none =>
      match jsonp s with
      | some d => .ok d
      | none => .error .jsonDecodeError

/-- The shared `try/except` wrapper of all three handlers: on any
exception from decoding or from the inner analysis, build an error
response from the ORIGINAL `event` value — a step that itself raises when
the event is still a string. -/
def lambda_wrap {P B : Type} (dfltAg dfltFn : String) (b64 jsonp : String → Option (EventData P)) (inner : P → Except String B) (mkErr : String → B) (e : PyEvent P) : Except PyErr (BedrockResponse B) :=
  match decode_event b64 jsonp e with
  | .error _ => create_bedrock_response dfltAg dfltFn e (mkErr "JSONDecodeError")
  | .ok d =>
    match inner d.params with
    | .error m => create_bedrock_response dfltAg dfltFn e (mkErr m)
    | .ok b => create_bedrock_response dfltAg dfltFn e b

/-- The parameters read by the `minimal-dependency-finder` handler
(lines 104-110). -/
structure MdfParams where
  dependencies_s3_uri : Option String
  missing_components_s3_uri : Option String
  csd_s3_uri : Option String
  target_type : Option String
  entry_point_types : Option (List String)
  max_results : Option ℤ
deriving DecidableEq, Repr

/-- The payloads the `minimal-dependency-finder` handler can emit. -/
inductive MdfPayload where
  | missingDependenciesUriParam
  | missingMissingComponentsUriParam
  | downloadMissingFailed (msg : String)
  | csdWarning (msg : String)
  | results (r : MdfResults)
  | errorPayload (msg : String)
deriving DecidableEq, Repr

/-- Python truthiness of an optional string (`if not uri:`). -/
def uriFalsy (o : Option String) : Bool :=
  match o with
  | none => true
  | some s => s = ""

/-- The body of the `minimal-dependency-finder` handler after parameter
extraction (lines 104-162).  `s3Json`/`s3CsvMissing`/`s3CsvCsd` are the
S3-download collaborators; a download raising is an `Except.error`.  Note
the CSD branch (lines 140-149): when the optional CSD download fails, the
source RETURNS the warning payload immediately — the analysis does not
run. -/
def mdf_inner (s3Json : String → Except String (List Component)) (s3CsvMissing : String → Except String (List MissingRow)) (s3CsvCsd : String → Except String (List CsdRow)) (cfgEnv : Option EnvWeights) (p : MdfParams) : Except String MdfPayload :=
  if uriFalsy p.dependencies_s3_uri then .ok .missingDependenciesUriParam
  else if uriFalsy p.missing_components_s3_uri then .ok .missingMissingComponentsUriParam
  else
    match s3Json ((p.dependencies_s3_uri).getD "") with
    | .error m => .error m
    | .ok deps_data =>
      match s3CsvMissing ((p.missing_components_s3_uri).getD "") with
      | .error m => .ok (.downloadMissingFailed m)
      | .ok missing_rows =>
        let csdStep : Except MdfPayload (Option (List CsdRow)) :=
          match p.csd_s3_uri with
          | none => .ok none
          | some uri =>
            if uri = "" then .ok none
            else
              match s3CsvCsd uri with
              | .error m => .error (.csdWarning m)
              | .ok rows => .ok (some rows)
        match csdStep with
        | .error warn => .ok warn
        | .ok csd =>
          let cics := detect_cics_components_accurate deps_data
          let cfg := parse_component_weights cfgEnv
          .ok (.results (find_minimal_dependency_entry_points_cics_enhanced
            deps_data
            (p.target_type.getD "application_program")
            (p.entry_point_types.getD ["JCL", "TRANSACTION", "BMS"])
            (some missing_rows) csd (p.max_results.getD 10) cics cfg cfgEnv.isSome))

/-- The full `minimal-dependency-finder` `lambda_handler`
(lines 86-165). -/
def mdf_lambda_handler (b64 jsonp : String → Option (EventData MdfParams)) (s3Json : String → Except String (List Component)) (s3CsvMissing : String → Except String (List MissingRow)) (s3CsvCsd : String → Except String (List CsdRow)) (cfgEnv : Option EnvWeights) (e : PyEvent MdfParams) : Except PyErr (BedrockResponse MdfPayload) :=
  lambda_wrap "MinimalDependencyFinder" "findMinimalDependencies" b64 jsonp
    (mdf_inner s3Json s3CsvMissing s3CsvCsd cfgEnv) .errorPayload e

/-- The parameters read by the `dependency-analysis` handler
(lines 28-31). -/
structure DaParams where
  dependencies_s3_uri : Option String
  query_text : Option String
  include_transitive : Bool
  component_types : List String
deriving DecidableEq, Repr

/-- Payloads of the `dependency-analysis` handler; its analysis output `O`
is abstract here (only the wrapper of that handler is claimed about). -/
inductive DaPayload (O : Type) where
  | results (o : O)
  | errorPayload (msg : String)
deriving DecidableEq, Repr

/-- The body of the `dependency-analysis` handler: `params['...']`
indexing raises `KeyError` on an absent required key; the download and the
analysis are collaborators/abstract (`analyze` stands for
`analyze_dependencies`, whose internals are not claimed about here). -/
def da_inner {O : Type} (s3Json : String → Except String (List Component)) (analyze : List Component → String → Bool → List String → Except String O) (p : DaParams) : Except String (DaPayload O) :=
  match p.dependencies_s3_uri with
  | none => .error "KeyError: dependencies_s3_uri"
  | some uri =>
    match p.query_text with
    | none => .error "KeyError: query_text"
    | some q =>
      match s3Json uri with
      | .error m => .error m
      | .ok data =>
        match analyze data q p.include_transitive p.component_types with
        | .error m => .error m
        | .ok o => .ok (.results o)

/-- The full `dependency-analysis` `lambda_handler` (lines 9-69). -/
def da_lambda_handler {O : Type} (b64 jsonp : String → Option (EventData DaParams)) (s3Json : String → Except String (List Component)) (analyze : List Component → String → Bool → List String → Except String O) (e : PyEvent DaParams) : Except PyErr (BedrockResponse (DaPayload O)) :=
  lambda_wrap "DependencyAnalysis" "analyzeDependencies" b64 jsonp
    (da_inner s3Json analyze) DaPayload.errorPayload e

/-! ## Missing-component-analysis core (`missing-component-analysis`,
lines 95-373) -/

/-- The configurable risk parameters, read from environment variables at
the start of each request (lines 127-155 and 324-326; integer scores and
thresholds, type-classification lists). -/
structure RiskEnv where
  parent_high_threshold : ℤ
  parent_medium_threshold : ℤ
  parent_high_score : ℤ
  parent_medium_score : ℤ
  parent_low_score : ℤ
  critical_type_score : ℤ
  high_risk_type_score : ℤ
  medium_risk_type_score : ℤ
  jcl_parent_bonus : ℤ
  critical_threshold : ℤ
  high_threshold : ℤ
  medium_threshold : ℤ
  critical_types : List String
  high_risk_types : List String
  medium_risk_types : List String
  no_risk_types : List String
  overall_high_count_threshold : ℤ
  overall_medium_count_threshold : ℤ
deriving DecidableEq, Repr

/-- The environment-variable defaults of lines 128-155 and 325-326. -/
def defaultRiskEnv : RiskEnv :=
  { parent_high_threshold := 5
    parent_medium_threshold := 2
    parent_high_score := 30
    parent_medium_score := 20
    parent_low_score := 10
    critical_type_score := 40
    high_risk_type_score := 25
    medium_risk_type_score := 15
    jcl_parent_bonus := 20
    critical_threshold := 70
    high_threshold := 50
    medium_threshold := 30
    critical_types := ["Missing Program", "Missing Copybook"]
    high_risk_types := ["Missing Database Object", "Missing Control Card"]
    medium_risk_types := ["Missing Dataset"]
    no_risk_types := ["Missing Source File", "Missing Header", "System"]
    overall_high_count_threshold := 5
    overall_medium_count_threshold := 10 }

/-- One entry of the reverse `parent_map` (lines 158-169). -/
structure ParentRef where
  parent : String
  parent_type : String
  relationship : String
deriving DecidableEq, Repr

/-- Building the reverse parent map from the dependency snapshot
(lines 158-169). -/
def build_parent_map (data : List Component) : List (String × List ParentRef) :=
  data.foldl
    (fun pm item =>
      item.dependencies.foldl
        (fun pm dep =>
          let entry : ParentRef := ⟨item.name, item.type, dep.depType⟩
          match dlookup pm dep.name with
          | some l => dupsert pm dep.name (l ++ [entry])
          | none => pm ++ [(dep.name, [entry])])
        pm)
    []

/-- The `risk_factors` strings of lines 184-212, deep-embedded as the data
they interpolate. -/
inductive RiskFactor where
  | highParentCount (n : ℕ)
  | mediumParentCount (n : ℕ)
  | lowParentCount (n : ℕ)
  | noRiskType (t : String)
  | criticalType (t : String)
  | highRiskType (t : String)
  | mediumRiskType (t : String)
  | referencedByJcl (n : ℕ)
deriving DecidableEq, Repr

/-- Factor 1 (lines 181-190): the parent-count tier of the risk score. -/
def risk_parent_tier (env : RiskEnv) (parent_count : ℕ) : ℤ :=
  if (parent_count : ℤ) > env.parent_high_threshold then env.parent_high_score
  else if (parent_count : ℤ) > env.parent_medium_threshold then env.parent_medium_score
  else if parent_count > 0 then env.parent_low_score
  else 0

/-- Factor 2 (lines 192-204): the type tier of the risk score.  The
no-risk check comes first and wins even when the type also appears in the
critical, high-risk or medium-risk lists. -/
def risk_type_tier (env : RiskEnv) (missing_type : String) : ℤ :=
  if missing_type ∈ env.no_risk_types then 0
  else if missing_type ∈ env.critical_types then env.critical_type_score
  else if missing_type ∈ env.high_risk_types then env.high_risk_type_score
  else if missing_type ∈ env.medium_risk_types then env.medium_risk_type_score
  else 0

/-- Factor 3 (lines 206-212): a single fixed bonus when dependency context
is available and at least one parent of the record is of type `JCL`. -/
def risk_jcl_bonus (env : RiskEnv) (depsAvailable : Bool) (parent_info : List ParentRef) : ℤ :=
  if depsAvailable ∧ (parent_info.filter (fun p => p.parent_type = "JCL")).length > 0 then
    env.jcl_parent_bonus
  else 0

/-- Lines 214-222: map a numeric score to a level by descending threshold
comparison. -/
def risk_level_of_score (env : RiskEnv) (score : ℤ) : String :=
  if score ≥ env.critical_threshold then "CRITICAL"
  else if score ≥ env.high_threshold then "HIGH"
  else if score ≥ env.medium_threshold then "MEDIUM"
  else "LOW"

/-- One value of the `risk_scores` dict (lines 224-232). -/
structure RiskInfo where
  name : String
  type : String
  risk_score : ℤ
  risk_level : String
  risk_factors : List RiskFactor
  parent_count : ℕ
  parents : List String
deriving DecidableEq, Repr

/-- The per-row body of `calculate_risk_scores` (lines 171-232). -/
def risk_info_of_row (env : RiskEnv) (depsAvailable : Bool) (pm : List (String × List ParentRef)) (row : MissingRow) : RiskInfo :=
  let parentsClean := row.Parents.filter (fun p => p ≠ "")
  let parent_count := parentsClean.length
  let parent_info := (dlookup pm row.Name).getD []
  let jclCount := (parent_info.filter (fun p => p.parent_type = "JCL")).length
  let score := risk_parent_tier env parent_count + risk_type_tier env row.«Type» +
    risk_jcl_bonus env depsAvailable parent_info
  let factors :=
    (if (parent_count : ℤ) > env.parent_high_threshold then [RiskFactor.highParentCount parent_count]
     else if (parent_count : ℤ) > env.parent_medium_threshold then [RiskFactor.mediumParentCount parent_count]
     else if parent_count > 0 then [RiskFactor.lowParentCount parent_count]
     else []) ++
    (if row.«Type» ∈ env.no_risk_types then [RiskFactor.noRiskType row.«Type»]
     else if row.«Type» ∈ env.critical_types then [RiskFactor.criticalType row.«Type»]
     else if row.«Type» ∈ env.high_risk_types then [RiskFactor.highRiskType row.«Type»]
     else if row.«Type» ∈ env.medium_risk_types then [RiskFactor.mediumRiskType row.«Type»]
     else []) ++
    (if depsAvailable ∧ jclCount > 0 then [RiskFactor.referencedByJcl jclCount] else [])
  { name := row.Name
    type := row.«Type»
    risk_score := score
    risk_level := risk_level_of_score env score
    risk_factors := factors
    parent_count := parent_count
    parents := parentsClean }

/-- Python truthiness of the optional dependency snapshot
(`if dependencies_data:` — `None` and the empty list are both falsy). -/
def depsTruthy (deps : Option (List Component)) : Bool :=
  match deps with
  | none => false
  | some l => l ≠ []

/-- `calculate_risk_scores` (lines 123-234): a dict keyed by missing name
(a repeated name overwrites in place). -/
def calculate_risk_scores (rows : List MissingRow) (deps : Option (List Component)) (env : RiskEnv) : List (String × RiskInfo) :=
  let avail := depsTruthy deps
  let pm := if avail then build_parent_map (deps.getD []) else []
  rows.foldl (fun acc row => dupsert acc row.Name (risk_info_of_row env avail pm row)) []

/-- The `completeness_score` result (lines 236-253): either the
no-dependency-data message branch or the full record.  The score, a float
percentage in the source, is the exact rational here, rounded half-up to
one decimal. -/
inductive Completeness where
  | unavailable
  | available (score : ℚ) (total_components : ℕ) (missing_components : ℕ)
      (available_components : ℤ) (assessment : String)
deriving DecidableEq, Repr

/-- `get_completeness_assessment` (lines 255-266). -/
def get_completeness_assessment (score : ℚ) : String :=
  if score ≥ 90 then "Excellent - System is highly complete"
  else if score ≥ 80 then "Good - System is mostly complete"
  else if score ≥ 70 then "Fair - Some gaps exist"
  else if score ≥ 60 then "Poor - Significant gaps exist"
  else "Critical - Major components missing"

/-- `calculate_completeness_score` (lines 236-253). -/
def calculate_completeness_score (rows : List MissingRow) (deps : Option (List Component)) : Completeness :=
  if depsTruthy deps then
    let total := (deps.getD []).length
    let missing := rows.length
    let pct : ℚ :=
      if total > 0 then (((total : ℚ) - (missing : ℚ)) / (total : ℚ)) * 100 else 0
    .available (round1 pct) total missing ((total : ℤ) - (missing : ℤ))
      (get_completeness_assessment pct)
  else .unavailable

/-- The mitigation-suggestion strings of lines 268-298, deep-embedded as
the data they interpolate. -/
inductive Suggestion where
  | immediateAction (nCritical : ℕ)
  | focusCriticalFirst
  | highPriority (nHigh : ℕ)
  | createDatasets (n : ℕ)
  | developPrograms (n : ℕ)
  | createDbObjects (n : ℕ)
  | phasedApproach
  | validateMissing
deriving DecidableEq, Repr

/-- Count of rows with the given `Type` (`missing_df['Type'].value_counts()`
lookups). -/
def countType (rows : List MissingRow) (t : String) : ℕ :=
  (rows.filter (fun r => r.«Type» = t)).length

/-- `generate_mitigation_suggestions` (lines 268-298). -/
def generate_mitigation_suggestions (rows : List MissingRow) (risk : List (String × RiskInfo)) : List Suggestion :=
  let vals := risk.map Prod.snd
  let nCrit := (vals.filter (fun c => c.risk_level = "CRITICAL")).length
  let nHigh := (vals.filter (fun c => c.risk_level = "HIGH")).length
  (if nCrit > 0 then [Suggestion.immediateAction nCrit, Suggestion.focusCriticalFirst] else []) ++
  (if nHigh > 0 then [Suggestion.highPriority nHigh] else []) ++
  (if countType rows "Missing Dataset" > 0 then [Suggestion.createDatasets (countType rows "Missing Dataset")] else []) ++
  (if countType rows "Missing Program" > 0 then [Suggestion.developPrograms (countType rows "Missing Program")] else []) ++
  (if countType rows "Missing Database Object" > 0 then [Suggestion.createDbObjects (countType rows "Missing Database Object")] else []) ++
  [Suggestion.phasedApproach, Suggestion.validateMissing]

/-- The four categorized lists of `categorize_by_risk` (lines 300-312). -/
structure RiskCategories where
  CRITICAL : List RiskInfo
  HIGH : List RiskInfo
  MEDIUM : List RiskInfo
  LOW : List RiskInfo
deriving DecidableEq, Repr

/-- The descending-score sort of line 310 (`sort(key=..., reverse=True)`;
CPython's sort is stable, so equal scores keep their original order). -/
def sortRiskDesc (l : List RiskInfo) : List RiskInfo :=
  List.insertionSort (fun a b => b.risk_score ≤ a.risk_score) l

instance : DecidableRel (fun (a b : RiskInfo) => b.risk_score ≤ a.risk_score) := fun a b =>
  inferInstanceAs (Decidable (b.risk_score ≤ a.risk_score))

/-- `categorize_by_risk` (lines 300-312).  The `threshold` argument is
accepted, exactly as in the source, and never read. -/
def categorize_by_risk (risk : List (String × RiskInfo)) (_threshold : String) : RiskCategories :=
  let vals := risk.map Prod.snd
  { CRITICAL := sortRiskDesc (vals.filter (fun c => c.risk_level = "CRITICAL"))
    HIGH := sortRiskDesc (vals.filter (fun c => c.risk_level = "HIGH"))
    MEDIUM := sortRiskDesc (vals.filter (fun c => c.risk_level = "MEDIUM"))
    LOW := sortRiskDesc (vals.filter (fun c => c.risk_level = "LOW")) }

/-- `determine_overall_risk` (lines 314-335). -/
def determine_overall_risk (risk : List (String × RiskInfo)) (env : RiskEnv) : String :=
  if risk = [] then "UNKNOWN"
  else
    let vals := risk.map Prod.snd
    let nCrit := (vals.filter (fun c => c.risk_level = "CRITICAL")).length
    let nHigh := (vals.filter (fun c => c.risk_level = "HIGH")).length
    let nMed := (vals.filter (fun c => c.risk_level = "MEDIUM")).length
    if nCrit > 0 then "CRITICAL"
    else if (nHigh : ℤ) > env.overall_high_count_threshold then "HIGH"
    else if nHigh > 0 ∨ (nMed : ℤ) > env.overall_medium_count_threshold then "MEDIUM"
    else "LOW"

/-- The result of `analyze_missing_by_type` (lines 337-345); the type
counts are kept in first-encounter order (pandas `value_counts` orders by
descending count, which affects only presentation, and the `max` below
computes the maximal count directly). -/
structure MissingByType where
  type_breakdown : List (String × ℕ)
  most_common_missing : String × ℕ
  total_types : ℕ
deriving DecidableEq, Repr

/-- `analyze_missing_by_type` (lines 337-345). -/
def analyze_missing_by_type (rows : List MissingRow) : MissingByType :=
  let counts := rows.foldl (fun acc r => dupsert acc r.«Type» ((dlookup acc r.«Type»).getD 0 + 1)) []
  { type_breakdown := counts
    most_common_missing :=
      counts.foldl (fun best kv => if kv.2 > best.2 then kv else best) ("None", 0)
    total_types := counts.length }

/-- The result of `analyze_impact_on_parents` (lines 347-373). -/
inductive ImpactAnalysis where
  | unavailable
  | available (most_impacted_parents : List (String × List String))
      (total_impacted_parents : ℕ) (average_missing_per_parent : ℚ)
deriving DecidableEq, Repr

/-- `analyze_impact_on_parents` (lines 347-373). -/
def analyze_impact_on_parents (rows : List MissingRow) (deps : Option (List Component)) : ImpactAnalysis :=
  if depsTruthy deps then
    let impact :=
      rows.foldl
        (fun acc row =>
          row.Parents.foldl
            (fun acc parent =>
              if parent = "" then acc
              else
                match dlookup acc parent with
                | some l => dupsert acc parent (l ++ [row.Name])
                | none => acc ++ [(parent, [row.Name])])
            acc)
        []
    let sorted := List.insertionSort
      (fun (a b : String × List String) => b.2.length ≤ a.2.length) impact
    .available (sorted.take 10) impact.length
      (if impact ≠ [] then
        ((impact.map (fun kv => kv.2.length)).sum : ℚ) / (impact.length : ℚ)
       else 0)
  else .unavailable

/-- The `risk_assessment` block of the response (lines 109-116). -/
structure RiskAssessment where
  overall_risk : String
  missing_count : ℕ
  critical_missing : List RiskInfo
  high_risk_missing : List RiskInfo
  medium_risk_missing : List RiskInfo
  low_risk_missing : List RiskInfo
deriving DecidableEq, Repr

/-- The full response of `analyze_missing_components` (lines 108-121). -/
structure McaOutput where
  risk_assessment : RiskAssessment
  completeness_score : Completeness
  mitigation_suggestions : List Suggestion
  missing_by_type : MissingByType
  impact_analysis : ImpactAnalysis
deriving DecidableEq, Repr

/-- `analyze_missing_components` (lines 95-121). -/
def analyze_missing_components (rows : List MissingRow) (deps : Option (List Component)) (env : RiskEnv) (risk_threshold : String) : McaOutput :=
  let risk := calculate_risk_scores rows deps env
  let completeness := calculate_completeness_score rows deps
  let mitigations := generate_mitigation_suggestions rows risk
  let cats := categorize_by_risk risk risk_threshold
  { risk_assessment :=
      { overall_risk := determine_overall_risk risk env
        missing_count := rows.length
        critical_missing := cats.CRITICAL.take 10
        high_risk_missing := cats.HIGH.take 15
        medium_risk_missing := cats.MEDIUM.take 20
        low_risk_missing := cats.LOW.take 10 }
    completeness_score := completeness
    mitigation_suggestions := mitigations.take 10
    missing_by_type := analyze_missing_by_type rows
    impact_analysis := analyze_impact_on_parents rows deps }

/-- The parameters read by the `missing-component-analysis` handler
(lines 29-31). -/
structure McaParams where
  missing_components_s3_uri : Option String
  dependencies_s3_uri : Option String
  risk_threshold : Option String
deriving DecidableEq, Repr

/-- Payloads of the `missing-component-analysis` handler. -/
inductive McaPayload where
  | results (r : McaOutput)
  | errorPayload (msg : String)
deriving DecidableEq, Repr

/-- The body of the `missing-component-analysis` handler (lines 28-58):
defaulted URI parameters, required missing-components download, optional
dependency download (the default URI is truthy, so it is attempted unless
overridden with an empty string), then the analysis. -/
def mca_inner (s3Csv : String → Except String (List MissingRow)) (s3Json : String → Except String (List Component)) (env : RiskEnv) (p : McaParams) : Except String McaPayload :=
  let muri := p.missing_components_s3_uri.getD "s3://dependency-analysis/missing_files.csv"
  let duri := p.dependencies_s3_uri.getD "s3://dependency-analysis/dependencies_20250911203624.json"
  let thr := p.risk_threshold.getD "MEDIUM"
  match s3Csv muri with
  | .error m => .error m
  | .ok rows =>
    if duri = "" then .ok (.results (analyze_missing_components rows none env thr))
    else
      match s3Json duri with
      | .error m => .error m
      | .ok data => .ok (.results (analyze_missing_components rows (some data) env thr))

/-- The full `missing-component-analysis` `lambda_handler`
(lines 10-74). -/
def mca_lambda_handler (b64 jsonp : String → Option (EventData McaParams)) (s3Csv : String → Except String (List MissingRow)) (s3Json : String → Except String (List Component)) (env : RiskEnv) (e : PyEvent McaParams) : Except PyErr (BedrockResponse McaPayload) :=
  lambda_wrap "MissingComponentAnalysis" "analyzeMissingComponents" b64 jsonp
    (mca_inner s3Csv s3Json env) .errorPayload e

/-! ## Concrete instances used by counterexamples and witnesses -/

/-- The worked example of §8 of the spec: `A→[B,C]`, `B→[C]`, `C→[]`. -/
def exampleComponents : List Component :=
  [⟨"A", "JCL", "", [⟨"B", "CALL"⟩, ⟨"C", "CALL"⟩]⟩,
   ⟨"B", "COB", "", [⟨"C", "CALL"⟩]⟩,
   ⟨"C", "CPY", "", []⟩]

/-- The graph of the §8 example. -/
def exampleGraph : GraphL := buildGraph exampleComponents

/-- The component index of the §8 example. -/
def exampleCompDict : CompDict := buildComponents exampleComponents

/-- A two-node cycle: `A→[B]`, `B→[A]`. -/
def cycComponents : List Component :=
  [⟨"A", "COB", "", [⟨"B", "CALL"⟩]⟩, ⟨"B", "COB", "", [⟨"A", "CALL"⟩]⟩]

/-- The graph of the two-node cycle. -/
def cycGraph : GraphL := buildGraph cycComponents

/-- The component index of the two-node cycle. -/
def cycCompDict : CompDict := buildComponents cycComponents

/-- Components for the scoring-mutation evidence: `A` (JCL) → `B` (COB),
`C` (JCL) → `A`.  `A` and `C` are eligible entry points executing
`application_program`; `B` is not an entry point. -/
def c1A : Component := ⟨"A", "JCL", "", [⟨"B", "CALL"⟩]⟩

/-- See `c1A`. -/
def c1B : Component := ⟨"B", "COB", "", []⟩

/-- See `c1A`. -/
def c1C : Component := ⟨"C", "JCL", "", [⟨"A", "CALL"⟩]⟩

/-- Missing-component rows: `MA` (type COB) referenced by `A`, `MB` (type
COB) referenced by `B`. -/
def c1Rows : List MissingRow := [⟨"MA", "COB", ["A"]⟩, ⟨"MB", "COB", ["B"]⟩]

/-- Candidate records produced when the snapshot lists the components in
the order `A, B, C` (so candidate `A` is scored before candidate `C`). -/
def c1RunFwd : List CandidateRec :=
  (build_entry_point_candidates (buildComponents [c1A, c1B, c1C]) (buildGraph [c1A, c1B, c1C])
    [] defaultConfig (build_missing_by_parent c1Rows defaultConfig)
    "application_program" ["JCL", "TRANSACTION", "BMS"]).1

/-- Candidate records for the same snapshot content listed in the order
`C, A, B` (so candidate `C` is scored before candidate `A`). -/
def c1RunRev : List CandidateRec :=
  (build_entry_point_candidates (buildComponents [c1C, c1A, c1B]) (buildGraph [c1C, c1A, c1B])
    [] defaultConfig (build_missing_by_parent c1Rows defaultConfig)
    "application_program" ["JCL", "TRANSACTION", "BMS"]).1

/-- The weighted complexity score of the named candidate, if present. -/
def candidateScoreOf (l : List CandidateRec) (n : String) : Option ℚ :=
  (l.find? (fun c => c.component_name == n)).map (fun c => c.weighted_complexity_score)

/-- The missing-priority count of the named candidate, if present. -/
def candidateMissingPriorityOf (l : List CandidateRec) (n : String) : Option ℕ :=
  (l.find? (fun c => c.component_name == n)).map (fun c => c.missing_priority_count)

/-- An event for the CSD-failure evidence: all three URIs supplied. -/
def c3Event : PyEvent MdfParams :=
  .obj ⟨none, none,
    { dependencies_s3_uri := some "s3://bucket/deps.json"
      missing_components_s3_uri := some "s3://bucket/missing.csv"
      csd_s3_uri := some "s3://bucket/tables.csd"
      target_type := none
      entry_point_types := none
      max_results := none }⟩

/-- A decode oracle that never parses (used where decoding is not
exercised or must fail). -/
def oracleNoParse {P : Type} : String → Option (EventData P) := fun _ => none

/-- An S3 JSON oracle returning the §8 example snapshot. -/
def c3s3Json : String → Except String (List Component) := fun _ => .ok exampleComponents

/-- An S3 CSV oracle returning the missing rows of `c1Rows`. -/
def c3s3Missing : String → Except String (List MissingRow) := fun _ => .ok c1Rows

/-- An S3 CSV oracle whose download always fails. -/
def c3s3MissingFail : String → Except String (List MissingRow) := fun _ => .error "NoSuchKey"

/-- A CSD download oracle whose download always fails. -/
def c3s3CsdFail : String → Except String (List CsdRow) := fun _ => .error "AccessDenied"

/-- A CSD download oracle that succeeds with an empty table. -/
def c3s3CsdOk : String → Except String (List CsdRow) := fun _ => .ok []

/-- A risk environment in which type `"X"` is in BOTH the no-risk and the
critical lists, and `"Y"` only in the critical list. -/
def envC9 : RiskEnv :=
  { defaultRiskEnv with no_risk_types := ["X"], critical_types := ["X", "Y"] }

/-- An externally supplied weight configuration exercising all three
sections: both type sections replaced, two of the five multipliers
overridden. -/
def envWeightsC8 : EnvWeights :=
  { priority_types := some [("ASM", 9/10)]
    medium_types := some [("PLI", 6/10)]
    scoring_multipliers := some
      { priority_weight := some 3
        medium_weight := none
        missing_priority_penalty := none
        missing_medium_penalty := some 5
        cics_complexity_factor := none } }

/-! ## Lemmas about the set model and the transitive closure -/

theorem mem_sinsert {s : List String} {a x : String} :
    x ∈ sinsert s a ↔ x ∈ s ∨ x = a := by
  unfold sinsert
  split
  · constructor
    · exact fun h => Or.inl h
    · rintro (h | rfl)
      · exact h
      · assumption
  · simp

theorem mem_sunion {s t : List String} {x : String} :
    x ∈ sunion s t ↔ x ∈ s ∨ x ∈ t := by
  unfold sunion
  induction t generalizing s with
  | nil => simp
  | cons a t ih =>
    simp only [List.foldl_cons, ih, mem_sinsert, List.mem_cons]
    tauto

theorem mem_closure_fold {F : String → List String} {deps : List String} {acc : List String} {t : String} :
    t ∈ deps.foldl (fun acc dep => sunion (sinsert acc dep) (F dep)) acc ↔
      t ∈ acc ∨ ∃ d ∈ deps, t = d ∨ t ∈ F d := by
  induction deps generalizing acc with
  | nil => simp
  | cons d ds ih =>
    simp only [List.foldl_cons, ih, mem_sunion, mem_sinsert, List.mem_cons]
    constructor
    · rintro (((h | h) | h) | ⟨e, he, h⟩)
      · exact Or.inl h
      · exact Or.inr ⟨d, Or.inl rfl, Or.inl h⟩
      · exact Or.inr ⟨d, Or.inl rfl, Or.inr h⟩
      · exact Or.inr ⟨e, Or.inr he, h⟩
    · rintro (h | ⟨e, (rfl | he), h⟩)
      · exact Or.inl (Or.inl (Or.inl h))
      · rcases h with h | h
        · exact Or.inl (Or.inl (Or.inr h))
        · exact Or.inl (Or.inr h)
      · exact Or.inr ⟨e, he, h⟩

theorem closure_fold_congr {F G : String → List String} {deps : List String} (h : ∀ d ∈ deps, F d = G d) :
    ∀ acc, deps.foldl (fun acc dep => sunion (sinsert acc dep) (F dep)) acc =
      deps.foldl (fun acc dep => sunion (sinsert acc dep) (G dep)) acc := by
  induction deps with
  | nil => intro acc; rfl
  | cons d ds ih =>
    intro acc
    simp only [List.foldl_cons]
    rw [h d (List.mem_cons_self d ds), ih (fun e he => h e (List.mem_cons_of_mem d he))]

theorem dlookup_isSome_mem_gKeys {α : Type} {g : List (String × α)} {s : String} {v : α}
    (h : dlookup g s = some v) : s ∈ (g.map Prod.fst).dedup := by
  rw [List.mem_dedup]
  induction g with
  | nil => simp [dlookup] at h
  | cons kv rest ih =>
    rw [dlookup] at h
    split at h
    · rename_i heq
      simp only [List.map_cons, List.mem_cons]
      exact Or.inl heq.symm
    · exact List.mem_cons_of_mem _ (ih h)

theorem mem_gKeys_of_dlookup {g : GraphL} {s : String} {v : List String}
    (h : dlookup g s = some v) : s ∈ gKeys g :=
  dlookup_isSome_mem_gKeys h

theorem length_filter_ne_lt {l : List String} {s : String} (hs : s ∈ l) :
    (l.filter (fun k => k ≠ s)).length < l.length := by
  induction l with
  | nil => cases hs
  | cons a t ih =>
    by_cases has : a = s
    · subst has
      simp only [List.filter_cons]
      have hd : (decide (a ≠ a)) = false := by simp
      rw [hd]
      exact Nat.lt_succ_of_le (List.length_filter_le _ t)
    · have hst : s ∈ t := by
        rcases List.mem_cons.mp hs with h | h
        · exact absurd h.symm has
        · exact h
      simp only [List.filter_cons]
      split
      · simpa using ih hst
      · exact Nat.lt_succ_of_lt (ih hst)

theorem unvisitedCount_sinsert_lt {g : GraphL} {V : List String} {s : String}
    (hk : s ∈ gKeys g) (hv : s ∉ V) :
    unvisitedCount g (sinsert V s) < unvisitedCount g V := by
  unfold unvisitedCount
  have hfilter : (gKeys g).filter (fun k => k ∉ sinsert V s) =
      ((gKeys g).filter (fun k => k ∉ V)).filter (fun k => k ≠ s) := by
    rw [List.filter_filter]
    apply List.filter_congr
    intro k _
    by_cases h1 : k ∈ V <;> by_cases h2 : k = s <;> simp [mem_sinsert, h1, h2]
  rw [hfilter]
  apply length_filter_ne_lt
  rw [List.mem_filter]
  exact ⟨hk, by simpa using hv⟩

theorem gatdF_fuel_congr :
    ∀ (f₁ : ℕ), ∀ {f₂ : ℕ} {g : GraphL} {s : String} {V : List String},
      unvisitedCount g V ≤ f₁ → unvisitedCount g V ≤ f₂ →
      gatdF (f₁ + 1) g s V = gatdF (f₂ + 1) g s V := by
  intro f₁
  induction f₁ using Nat.strong_induction_on with
  | _ f₁ ih =>
    intro f₂ g s V h₁ h₂
    show gatdF (f₁ + 1) g s V = gatdF (f₂ + 1) g s V
    simp only [gatdF]
    split
    · rfl
    · rename_i hsV
      cases hd : dlookup g s with
      | none => rfl
      | some deps =>
        apply closure_fold_congr
        intro d _
        have hk : s ∈ gKeys g := mem_gKeys_of_dlookup hd
        have hlt : unvisitedCount g (sinsert V s) < unvisitedCount g V :=
          unvisitedCount_sinsert_lt hk hsV
        obtain ⟨f₁', rfl⟩ : ∃ k, f₁ = k + 1 := ⟨f₁ - 1, by omega⟩
        obtain ⟨f₂', rfl⟩ : ∃ k, f₂ = k + 1 := ⟨f₂ - 1, by omega⟩
        apply ih f₁'
        · omega
        · omega
        · omega

theorem gatd_unfold (g : GraphL) (start : String) (visited : List String) :
    get_all_transitive_dependencies g start visited =
      if start ∈ visited then []
      else
        match dlookup g start with
        | none => []
        | some deps =>
          deps.foldl
            (fun acc dep =>
              sunion (sinsert acc dep) (get_all_transitive_dependencies g dep (sinsert visited start)))
            [] := by
  unfold get_all_transitive_dependencies gatdFuel
  conv_lhs => rw [gatdF]
  split
  · rfl
  · rename_i hsV
    cases hd : dlookup g start with
    | none => rfl
    | some deps =>
      apply closure_fold_congr
      intro d _
      have hk : start ∈ gKeys g := mem_gKeys_of_dlookup hd
      have hlt : unvisitedCount g (sinsert visited start) < unvisitedCount g visited :=
        unvisitedCount_sinsert_lt hk hsV
      obtain ⟨m, hm⟩ : ∃ m, unvisitedCount g visited = m + 1 :=
        ⟨unvisitedCount g visited - 1, by omega⟩
      rw [hm]
      apply gatdF_fuel_congr
      · omega
      · omega

theorem edgeRel_of_dlookup {g : GraphL} {s d : String} {deps : List String}
    (hd : dlookup g s = some deps) (hdm : d ∈ deps) : edgeRel g s d := by
  unfold edgeRel directDeps
  rw [hd]
  exact hdm

theorem mem_closure_transGen {g : GraphL} :
    ∀ (n : ℕ) (V : List String) (s t : String), unvisitedCount g V = n →
      t ∈ get_all_transitive_dependencies g s V → Relation.TransGen (edgeRel g) s t := by
  intro n
  induction n using Nat.strong_induction_on with
  | _ n ih =>
    intro V s t hn ht
    rw [gatd_unfold] at ht
    split at ht
    · cases ht
    · rename_i hsV
      split at ht
      · cases ht
      · rename_i deps hd
        rw [mem_closure_fold] at ht
        rcases ht with h | ⟨d, hdm, h⟩
        · cases h
        · have hedge : edgeRel g s d := edgeRel_of_dlookup hd hdm
          rcases h with rfl | h
          · exact Relation.TransGen.single hedge
          · have hk := mem_gKeys_of_dlookup hd
            have hlt := unvisitedCount_sinsert_lt hk hsV
            have htail := ih (unvisitedCount g (sinsert V s)) (by omega) (sinsert V s) d t rfl h
            exact Relation.TransGen.head hedge htail

theorem closure_visited_irrel {g : GraphL} :
    ∀ (n : ℕ) (V₁ V₂ : List String) (s : String), unvisitedCount g V₂ = n →
      (∀ v, v ∈ V₂ → v ∈ V₁) →
      (∀ v, v ∈ V₁ → v ∉ V₂ → ¬ Relation.ReflTransGen (edgeRel g) s v) →
      get_all_transitive_dependencies g s V₁ = get_all_transitive_dependencies g s V₂ := by
  intro n
  induction n using Nat.strong_induction_on with
  | _ n ih =>
    intro V₁ V₂ s hn hsub hunreach
    rw [gatd_unfold, gatd_unfold]
    by_cases h2 : s ∈ V₂
    · rw [if_pos (hsub s h2), if_pos h2]
    · by_cases h1 : s ∈ V₁
      · exact absurd Relation.ReflTransGen.refl (hunreach s h1 h2)
      · rw [if_neg h1, if_neg h2]
        cases hd : dlookup g s with
        | none => rfl
        | some deps =>
          apply closure_fold_congr
          intro d hdm
          have hedge : edgeRel g s d := edgeRel_of_dlookup hd hdm
          have hk := mem_gKeys_of_dlookup hd
          have hlt := unvisitedCount_sinsert_lt hk h2
          apply ih (unvisitedCount g (sinsert V₂ s)) (by omega) (sinsert V₁ s) (sinsert V₂ s) d rfl
          · intro v hv
            rw [mem_sinsert] at hv ⊢
            tauto
          · intro v hv hnv
            rw [mem_sinsert] at hv
            rw [mem_sinsert] at hnv
            push_neg at hnv
            obtain ⟨hv2, hvs⟩ := hnv
            rcases hv with hv1 | rfl
            · intro hrtg
              exact hunreach v hv1 hv2 (Relation.ReflTransGen.head hedge hrtg)
            · exact absurd rfl hvs

theorem closure_branch_visited_drop {g : GraphL} (hacyc : Acyclic g) {start d : String}
    (hedge : edgeRel g start d) :
    get_all_transitive_dependencies g d (sinsert [] start) = transitiveClosure g d := by
  apply closure_visited_irrel (unvisitedCount g []) (sinsert [] start) [] d rfl
  · intro v hv
    cases hv
  · intro v hv hnv
    rw [mem_sinsert] at hv
    rcases hv with h | heq
    · cases h
    · subst heq
      intro hrtg
      exact hacyc _ (Relation.TransGen.head' hedge hrtg)

theorem acyclic_of_rank (g : GraphL) (rk : String → ℕ)
    (h : ∀ a ∈ gKeys g, ∀ b ∈ directDeps g a, rk b < rk a) : Acyclic g := by
  have hedge : ∀ a b, edgeRel g a b → rk b < rk a := by
    intro a b hab
    have hmem : b ∈ directDeps g a := hab
    have ha : a ∈ gKeys g := by
      unfold directDeps at hmem
      cases hd : dlookup g a with
      | none => rw [hd] at hmem; cases hmem
      | some deps => exact mem_gKeys_of_dlookup hd
    exact h a ha b hmem
  intro n hn
  have mono : ∀ a b, Relation.TransGen (edgeRel g) a b → rk b < rk a := by
    intro a b htg
    induction htg with
    | single h1 => exact hedge _ _ h1
    | tail _ h1 ih2 => exact lt_trans (hedge _ _ h1) ih2
  exact lt_irrefl _ (mono n n hn)

/-! ## Claim C4 -/

/-- C4: For every acyclic graph and every node `X`,
`transitiveClosure(X)` equals (as a set) the union of `X`'s direct
dependencies and the transitive closures of each direct dependency, and
`X` itself is not a member of `transitiveClosure(X)`.  On any graph,
cyclic included, the computation terminates — witnessed by
`get_all_transitive_dependencies` being a total function whose recursion
equation (`gatd_unfold`) matches the source. -/
theorem closure_eq_fold (g : GraphL) (start : String) :
    transitiveClosure g start =
      (directDeps g start).foldl
        (fun acc dep =>
          sunion (sinsert acc dep) (get_all_transitive_dependencies g dep (sinsert [] start)))
        [] := by
  rw [transitiveClosure, gatd_unfold, if_neg (List.not_mem_nil start)]
  cases hd : dlookup g start with
  | none => simp [directDeps, hd]
  | some deps => simp [directDeps, hd]

theorem edgeRel_iff_mem_directDeps {g : GraphL} {a b : String} :
    edgeRel g a b ↔ b ∈ directDeps g a := Iff.rfl

theorem C4_closure_recurrence_acyclic (g : GraphL) (hacyc : Acyclic g) (start : String) :
    (transitiveClosure g start).toFinset =
      (directDeps g start).toFinset ∪
        (directDeps g start).toFinset.biUnion (fun d => (transitiveClosure g d).toFinset) ∧
    start ∉ transitiveClosure g start := by
  constructor
  · ext t
    simp only [List.mem_toFinset, Finset.mem_union, Finset.mem_biUnion]
    show t ∈ transitiveClosure g start ↔ _
    rw [closure_eq_fold]
    have hirr : ∀ d ∈ directDeps g start,
        get_all_transitive_dependencies g d (sinsert [] start) = transitiveClosure g d := by
      intro d hdm
      exact closure_branch_visited_drop hacyc (edgeRel_iff_mem_directDeps.mpr hdm)
    rw [closure_fold_congr hirr]
    rw [mem_closure_fold]
    simp only [List.not_mem_nil, false_or]
    constructor
    · rintro ⟨d, hdm, rfl | htc⟩
      · exact Or.inl hdm
      · exact Or.inr ⟨d, hdm, htc⟩
    · rintro (htm | ⟨d, hdm, htc⟩)
      · exact ⟨t, htm, Or.inl rfl⟩
      · exact ⟨d, hdm, Or.inr htc⟩
  · intro hmem
    exact hacyc start (mem_closure_transGen (unvisitedCount g []) [] start start rfl hmem)

/-- Witness for C4 on the §8 example graph (`A→[B,C]`, `B→[C]`, `C→[]`):
the graph is acyclic (rank argument) and the recurrence plus
non-membership hold at node `A`. -/
theorem C4_closure_recurrence_acyclic_witness :
    Acyclic exampleGraph ∧
    ((transitiveClosure exampleGraph "A").toFinset =
      (directDeps exampleGraph "A").toFinset ∪
        (directDeps exampleGraph "A").toFinset.biUnion
          (fun d => (transitiveClosure exampleGraph d).toFinset) ∧
    "A" ∉ transitiveClosure exampleGraph "A") := by
  have hac : Acyclic exampleGraph :=
    acyclic_of_rank exampleGraph
      (fun s => if s = "A" then 2 else if s = "B" then 1 else 0) (by decide)
  exact ⟨hac, C4_closure_recurrence_acyclic exampleGraph hac "A"⟩

/-! ## Claims C5 and C6 -/

theorem chains_complete_aux (g : GraphL) (comps : CompDict) :
    ∀ (l' : List String) (c : List String) (cur : String) (fuel : ℕ),
      IsEdgePath g (cur :: l') → l' ≠ [] → l'.length ≤ fuel →
      ∃ r ∈ get_dependency_chains_aux g comps fuel (c ++ [cur]) cur,
        r.chain = (c ++ [cur]) ++ l' ∧ r.depth = ((c ++ [cur]) ++ l').length - 1 := by
  intro l'
  induction l' with
  | nil =>
    intro c cur fuel _ hne _
    exact absurd rfl hne
  | cons d ds ih =>
    intro c cur fuel hchain _ hlen
    obtain ⟨hedge, hchain2⟩ := hchain
    have hmem : d ∈ directDeps g cur := hedge
    obtain ⟨deps, hd, hdm⟩ : ∃ deps, dlookup g cur = some deps ∧ d ∈ deps := by
      unfold directDeps at hmem
      cases hl : dlookup g cur with
      | none =>
        rw [hl] at hmem
        cases hmem
      | some deps =>
        rw [hl] at hmem
        exact ⟨deps, rfl, by simpa using hmem⟩
    obtain ⟨f, rfl⟩ : ∃ f, fuel = f + 1 := ⟨fuel - 1, by simp at hlen; omega⟩
    simp only [get_dependency_chains_aux, hd]
    by_cases hds : ds = []
    · subst hds
      refine ⟨_, List.mem_flatMap.mpr ⟨d, hdm, List.mem_cons_self _ _⟩, rfl, rfl⟩
    · have hlen2 : ds.length ≤ f := by simp at hlen; omega
      obtain ⟨r, hrmem, hchain_eq, hdepth⟩ := ih (c ++ [cur]) d f hchain2 hds hlen2
      refine ⟨r, List.mem_flatMap.mpr ⟨d, hdm, List.mem_cons_of_mem _ hrmem⟩, ?_, ?_⟩
      · rw [hchain_eq]
        simp
      · rw [hdepth]
        simp

/-- C5 counterexample: the §8 example graph has a simple path
`A → B → C` of exactly `maxDepth = 2` edges starting at `A`, yet the
enumeration with `maxDepth = 2` emits exactly the chains `[A,B]` and
`[A,C]` — no chain with 2 edges is emitted, refuting "enumerates every
path ... up to maxDepth edges". -/
theorem C5_counterexample :
    IsEdgePath exampleGraph ["A", "B", "C"] ∧
    (get_dependency_chains exampleGraph exampleCompDict "A" 2).map ChainRec.chain =
      [["A", "B"], ["A", "C"]] ∧
    ∀ r ∈ get_dependency_chains exampleGraph exampleCompDict "A" 2, r.depth ≠ 2 := by
  decide

/-- C5 as amended: `dependencyChains(start, maxDepth)` emits one record
per dependency path starting at `start` with at most `maxDepth - 1` edges
(equivalently: at most `maxDepth` nodes), not `maxDepth` edges: every such
path `l` (at least one edge) appears as the `chain` of an emitted record,
with `depth` equal to its edge count. -/
theorem C5_chains_complete_up_to_depth_minus_one (g : GraphL) (comps : CompDict) (start : String) (maxDepth : ℕ) (l : List String)
    (h1 : l.head? = some start) (h2 : IsEdgePath g l)
    (h3 : 2 ≤ l.length) (h4 : l.length ≤ maxDepth) :
    ∃ r ∈ get_dependency_chains g comps start maxDepth,
      r.chain = l ∧ r.depth = l.length - 1 := by
  obtain ⟨l', rfl⟩ : ∃ l', l = start :: l' := by
    cases l with
    | nil => cases h1
    | cons a t =>
      simp only [List.head?_cons, Option.some.injEq] at h1
      exact ⟨t, by rw [h1]⟩
  have hne : l' ≠ [] := by
    intro h
    subst h
    simp at h3
  have hlen : l'.length ≤ maxDepth - 1 := by
    simp at h3 h4
    omega
  have := chains_complete_aux g comps l' [] start (maxDepth - 1) h2 hne hlen
  simpa [get_dependency_chains] using this

/-- Witness for the amended C5: on the §8 example with `maxDepth = 3`,
the path `A → B → C` (2 = maxDepth−1 edges) is emitted. -/
theorem C5_chains_complete_witness :
    ∃ r ∈ get_dependency_chains exampleGraph exampleCompDict "A" 3,
      r.chain = ["A", "B", "C"] ∧ r.depth = 2 :=
  C5_chains_complete_up_to_depth_minus_one exampleGraph exampleCompDict "A" 3
    ["A", "B", "C"] rfl (by decide) (by decide) (by decide)

theorem chains_sound_aux (g : GraphL) (comps : CompDict) :
    ∀ (fuel : ℕ) (c : List String) (cur : String) (r : ChainRec),
      r ∈ get_dependency_chains_aux g comps fuel c cur →
      ∃ suffix, suffix ≠ [] ∧ r.chain = c ++ suffix ∧ suffix.length ≤ fuel ∧
        r.depth = r.chain.length - 1 := by
  intro fuel
  induction fuel with
  | zero =>
    intro c cur r hr
    exact absurd hr (List.not_mem_nil r)
  | succ f ih =>
    intro c cur r hr
    simp only [get_dependency_chains_aux] at hr
    cases hd : dlookup g cur with
    | none =>
      rw [hd] at hr
      exact absurd hr (List.not_mem_nil r)
    | some deps =>
      rw [hd] at hr
      rw [List.mem_flatMap] at hr
      obtain ⟨d, hdm, hr2⟩ := hr
      rcases List.mem_cons.mp hr2 with rfl | hr3
      · exact ⟨[d], by simp, rfl, by simp, rfl⟩
      · obtain ⟨suffix, hne, hchain, hlen, hdepth⟩ := ih (c ++ [d]) d r hr3
        refine ⟨[d] ++ suffix, by simp, by rw [hchain]; simp, ?_, hdepth⟩
        simp only [List.length_append, List.length_cons, List.length_nil]
        omega

/-- C6 counterexample: on the two-node cycle `A→B→A` with `maxDepth = 3`,
the enumeration emits the record `[A, B, A]`, whose nodes are not pairwise
distinct — there is no per-path visited set. -/
theorem C6_counterexample :
    (get_dependency_chains cycGraph cycCompDict "A" 3).map ChainRec.chain =
      [["A", "B"], ["A", "B", "A"]] ∧
    ∃ r ∈ get_dependency_chains cycGraph cycCompDict "A" 3, ¬ r.chain.Nodup := by
  decide

/-- C6 as amended: chain records may revisit nodes within the same path
(no per-path visited set is kept), yet the enumeration still emits
finitely many records on every graph — cyclic included — because it is a
total function and every emitted chain has between 2 and `maxDepth` nodes
(so between 1 and `maxDepth - 1` edges), with `depth` the edge count. -/
theorem C6_chain_records_bounded (g : GraphL) (comps : CompDict) (start : String) (maxDepth : ℕ) (r : ChainRec)
    (hr : r ∈ get_dependency_chains g comps start maxDepth) :
    2 ≤ r.chain.length ∧ r.chain.length ≤ maxDepth ∧ r.depth = r.chain.length - 1 := by
  obtain ⟨suffix, hne, hchain, hlen, hdepth⟩ :=
    chains_sound_aux g comps (maxDepth - 1) [start] start r hr
  have hsl : 1 ≤ suffix.length := List.length_pos.mpr hne
  refine ⟨?_, ?_, hdepth⟩
  · rw [hchain]
    simp only [List.length_append, List.length_cons, List.length_nil]
    omega
  · rw [hchain]
    simp only [List.length_append, List.length_cons, List.length_nil]
    omega

/-- Witness for the amended C6 at the revisiting record `[A, B, A]` of the
two-node cycle. -/
theorem C6_chain_records_bounded_witness :
    2 ≤ (["A", "B", "A"] : List String).length ∧
    (["A", "B", "A"] : List String).length ≤ 3 ∧
    (2 : ℕ) = (["A", "B", "A"] : List String).length - 1 :=
  C6_chain_records_bounded cycGraph cycCompDict "A" 3
    ⟨["A", "B", "A"], 2, "FROM_SOURCE", "A", ["COB", "COB", "COB"]⟩ (by decide)

/-! ## Claim C7 -/

theorem filter_orderedInsert_eq (x : CandidateRec) (s : ℚ) (l : List CandidateRec)
    (hx : x.weighted_complexity_score = s) :
    (List.orderedInsert scoreLE x l).filter (fun c => c.weighted_complexity_score = s) =
      x :: l.filter (fun c => c.weighted_complexity_score = s) := by
  induction l with
  | nil => simp [List.orderedInsert, hx]
  | cons b t ih =>
    rw [List.orderedInsert]
    by_cases h : scoreLE x b
    · rw [if_pos h]
      simp [List.filter_cons, hx]
    · rw [if_neg h]
      have hb : ¬ (b.weighted_complexity_score = s) := by
        intro hbs
        exact h (le_of_eq (by rw [hx, hbs]))
      simp [List.filter_cons, hb, ih]

theorem filter_orderedInsert_ne (x : CandidateRec) (s : ℚ) (l : List CandidateRec)
    (hx : ¬ (x.weighted_complexity_score = s)) :
    (List.orderedInsert scoreLE x l).filter (fun c => c.weighted_complexity_score = s) =
      l.filter (fun c => c.weighted_complexity_score = s) := by
  induction l with
  | nil => simp [List.orderedInsert, hx]
  | cons b t ih =>
    rw [List.orderedInsert]
    by_cases h : scoreLE x b
    · rw [if_pos h]
      simp [List.filter_cons, hx]
    · rw [if_neg h]
      by_cases hb : b.weighted_complexity_score = s
      · simp [List.filter_cons, hb, ih]
      · simp [List.filter_cons, hb, ih]

theorem insertionSort_filter_score (l : List CandidateRec) (s : ℚ) :
    (List.insertionSort scoreLE l).filter (fun c => c.weighted_complexity_score = s) =
      l.filter (fun c => c.weighted_complexity_score = s) := by
  induction l with
  | nil => rfl
  | cons x t ih =>
    rw [List.insertionSort]
    by_cases hx : x.weighted_complexity_score = s
    · rw [filter_orderedInsert_eq x s _ hx, ih]
      simp [List.filter_cons, hx]
    · rw [filter_orderedInsert_ne x s _ hx, ih]
      simp [List.filter_cons, hx]

theorem pyTake_natCast {α : Type} (l : List α) (m : ℕ) : pyTake l (m : ℤ) = l.take m := by
  unfold pyTake
  rw [if_pos (Int.natCast_nonneg m)]
  simp

/-- C7: the ranking stage (lines 404-412) sorts candidates by ascending
weighted complexity score; candidates with equal score keep their
discovery order (stability, stated as: for every score value, the sorted
list restricted to that score equals the input list restricted to it); the
output is truncated to the requested count; and the surviving entries
carry ranks 1, 2, 3, ... in list order. -/
theorem C7_ranking_sorted_stable_truncated_ranked (cands : List CandidateRec) (m : ℕ) :
    ((rank_stage cands (m : ℤ)).map RankedCandidate.cand =
      (List.insertionSort scoreLE cands).take m) ∧
    List.Sorted scoreLE ((rank_stage cands (m : ℤ)).map RankedCandidate.cand) ∧
    (∀ s : ℚ,
      (List.insertionSort scoreLE cands).filter (fun c => c.weighted_complexity_score = s) =
        cands.filter (fun c => c.weighted_complexity_score = s)) ∧
    (rank_stage cands (m : ℤ)).length = min m cands.length ∧
    (rank_stage cands (m : ℤ)).map RankedCandidate.rank =
      List.range' 1 ((rank_stage cands (m : ℤ)).length) := by
  have hcand : (RankedCandidate.cand ∘ fun p : ℕ × CandidateRec => ({ cand := p.2, rank := p.1 } : RankedCandidate)) = Prod.snd := rfl
  have hrank : (RankedCandidate.rank ∘ fun p : ℕ × CandidateRec => ({ cand := p.2, rank := p.1 } : RankedCandidate)) = Prod.fst := rfl
  have h1 : (rank_stage cands (m : ℤ)).map RankedCandidate.cand =
      (List.insertionSort scoreLE cands).take m := by
    unfold rank_stage
    rw [pyTake_natCast, List.map_map, hcand, List.enumFrom_map_snd]
  refine ⟨h1, ?_, ?_, ?_, ?_⟩
  · rw [h1]
    exact List.Pairwise.sublist (List.take_sublist m _)
      (List.sorted_insertionSort scoreLE cands)
  · intro s
    exact insertionSort_filter_score cands s
  · unfold rank_stage
    rw [pyTake_natCast]
    rw [List.length_map, List.enumFrom_length, List.length_take,
      (List.perm_insertionSort scoreLE cands).length_eq]
  · unfold rank_stage
    rw [pyTake_natCast, List.map_map, hrank, List.enumFrom_map_fst]
    rw [List.length_map, List.enumFrom_length]

/-! ## Claim C8 -/

/-- C8: a supplied `priority_types` (resp. `medium_types`) section
replaces the built-in section wholesale (the resulting section IS the
supplied one, so no built-in key survives); a supplied
`scoring_multipliers` section is merged coefficient by coefficient over
the defaults (supplied keys override, unsupplied keys keep their
defaults); absent sections keep the built-in defaults entirely. -/
theorem C8_weight_config_merge (e : EnvWeights) (o : MultipliersOverride) :
    (∀ P, e.priority_types = some P → (parse_component_weights (some e)).priority_types = P) ∧
    (e.priority_types = none →
      (parse_component_weights (some e)).priority_types = defaultConfig.priority_types) ∧
    (∀ M, e.medium_types = some M → (parse_component_weights (some e)).medium_types = M) ∧
    (e.medium_types = none →
      (parse_component_weights (some e)).medium_types = defaultConfig.medium_types) ∧
    (e.scoring_multipliers = some o →
      (parse_component_weights (some e)).scoring_multipliers =
        applyMultipliersOverride defaultConfig.scoring_multipliers o) ∧
    (e.scoring_multipliers = none →
      (parse_component_weights (some e)).scoring_multipliers =
        defaultConfig.scoring_multipliers) ∧
    (∀ v, o.priority_weight = some v →
      (applyMultipliersOverride defaultConfig.scoring_multipliers o).priority_weight = v) ∧
    (o.priority_weight = none →
      (applyMultipliersOverride defaultConfig.scoring_multipliers o).priority_weight =
        defaultConfig.scoring_multipliers.priority_weight) ∧
    (∀ v, o.medium_weight = some v →
      (applyMultipliersOverride defaultConfig.scoring_multipliers o).medium_weight = v) ∧
    (o.medium_weight = none →
      (applyMultipliersOverride defaultConfig.scoring_multipliers o).medium_weight =
        defaultConfig.scoring_multipliers.medium_weight) ∧
    (∀ v, o.missing_priority_penalty = some v →
      (applyMultipliersOverride defaultConfig.scoring_multipliers o).missing_priority_penalty = v) ∧
    (o.missing_priority_penalty = none →
      (applyMultipliersOverride defaultConfig.scoring_multipliers o).missing_priority_penalty =
        defaultConfig.scoring_multipliers.missing_priority_penalty) ∧
    (∀ v, o.missing_medium_penalty = some v →
      (applyMultipliersOverride defaultConfig.scoring_multipliers o).missing_medium_penalty = v) ∧
    (o.missing_medium_penalty = none →
      (applyMultipliersOverride defaultConfig.scoring_multipliers o).missing_medium_penalty =
        defaultConfig.scoring_multipliers.missing_medium_penalty) ∧
    (∀ v, o.cics_complexity_factor = some v →
      (applyMultipliersOverride defaultConfig.scoring_multipliers o).cics_complexity_factor = v) ∧
    (o.cics_complexity_factor = none →
      (applyMultipliersOverride defaultConfig.scoring_multipliers o).cics_complexity_factor =
        defaultConfig.scoring_multipliers.cics_complexity_factor) := by
  refine ⟨?_, ?_, ?_, ?_, ?_, ?_, ?_, ?_, ?_, ?_, ?_, ?_, ?_, ?_, ?_, ?_⟩ <;>
    intros <;> simp [parse_component_weights, applyMultipliersOverride, *]

/-- Witness for C8 with all three sections supplied (`envWeightsC8`):
both type sections replaced wholesale, the two overridden coefficients
take the supplied values, the untouched coefficients keep the defaults. -/
theorem C8_weight_config_merge_witness :
    (parse_component_weights (some envWeightsC8)).priority_types = [("ASM", 9/10)] ∧
    (parse_component_weights (some envWeightsC8)).medium_types = [("PLI", 6/10)] ∧
    (parse_component_weights (some envWeightsC8)).scoring_multipliers.priority_weight = 3 ∧
    (parse_component_weights (some envWeightsC8)).scoring_multipliers.medium_weight =
      defaultConfig.scoring_multipliers.medium_weight ∧
    (parse_component_weights (some envWeightsC8)).scoring_multipliers.missing_medium_penalty = 5 ∧
    (parse_component_weights (some envWeightsC8)).scoring_multipliers.cics_complexity_factor =
      defaultConfig.scoring_multipliers.cics_complexity_factor := by
  have h := C8_weight_config_merge envWeightsC8 ⟨some 3, none, none, some 5, none⟩
  have hsm : (parse_component_weights (some envWeightsC8)).scoring_multipliers =
      applyMultipliersOverride defaultConfig.scoring_multipliers ⟨some 3, none, none, some 5, none⟩ :=
    h.2.2.2.2.1 rfl
  refine ⟨h.1 _ rfl, h.2.2.1 _ rfl, ?_, ?_, ?_, ?_⟩
  · rw [hsm]
    exact h.2.2.2.2.2.2.1 _ rfl
  · rw [hsm]
    exact h.2.2.2.2.2.2.2.2.2.1 rfl
  · rw [hsm]
    exact h.2.2.2.2.2.2.2.2.2.2.2.2.1 _ rfl
  · rw [hsm]
    exact h.2.2.2.2.2.2.2.2.2.2.2.2.2.2.2 rfl

/-! ## Claim C9 -/

/-- C9: the per-record risk score is the sum of the parent-count tier,
the type tier and the JCL-parent bonus, and the type tier obeys the
claimed precedence: a type in the no-risk list contributes zero even if it
also appears in the critical/high/medium lists; otherwise critical, then
high, then medium, each adding its configured bonus; otherwise zero. -/
theorem C9_risk_type_tier_precedence (env : RiskEnv) (t : String) (depsAvailable : Bool)
    (pm : List (String × List ParentRef)) (row : MissingRow) :
    ((risk_info_of_row env depsAvailable pm row).risk_score =
      risk_parent_tier env ((row.Parents.filter (fun p => p ≠ "")).length) +
      risk_type_tier env row.«Type» +
      risk_jcl_bonus env depsAvailable ((dlookup pm row.Name).getD [])) ∧
    (t ∈ env.no_risk_types → risk_type_tier env t = 0) ∧
    (t ∉ env.no_risk_types → t ∈ env.critical_types →
      risk_type_tier env t = env.critical_type_score) ∧
    (t ∉ env.no_risk_types → t ∉ env.critical_types → t ∈ env.high_risk_types →
      risk_type_tier env t = env.high_risk_type_score) ∧
    (t ∉ env.no_risk_types → t ∉ env.critical_types → t ∉ env.high_risk_types →
      t ∈ env.medium_risk_types → risk_type_tier env t = env.medium_risk_type_score) ∧
    (t ∉ env.no_risk_types → t ∉ env.critical_types → t ∉ env.high_risk_types →
      t ∉ env.medium_risk_types → risk_type_tier env t = 0) := by
  refine ⟨rfl, ?_, ?_, ?_, ?_, ?_⟩ <;> intros <;> simp [risk_type_tier, *]

/-- Witness for C9 in an environment where type `"X"` is in BOTH the
no-risk and the critical lists: the no-risk check wins and `"X"` scores
zero type-tier points, while `"Y"` (critical only) scores the critical
bonus 40. -/
theorem C9_risk_type_tier_precedence_witness :
    ("X" ∈ envC9.no_risk_types ∧ "X" ∈ envC9.critical_types ∧ risk_type_tier envC9 "X" = 0) ∧
    risk_type_tier envC9 "Y" = 40 := by
  have hX := C9_risk_type_tier_precedence envC9 "X" false [] ⟨"M", "X", []⟩
  have hY := C9_risk_type_tier_precedence envC9 "Y" false [] ⟨"M", "Y", []⟩
  exact ⟨⟨by decide, by decide, hX.2.1 (by decide)⟩, hY.2.2.1 (by decide) (by decide)⟩

/-! ## Claim C10 -/

/-- C10: the `risk_threshold` request parameter has no effect on the
response — `analyze_missing_components` (and the handler body around it)
produce identical outputs for any two threshold values; the parameter is
accepted and passed to `categorize_by_risk`, which never reads it. -/
theorem C10_risk_threshold_has_no_effect (rows : List MissingRow) (deps : Option (List Component)) (env : RiskEnv) (t₁ t₂ : String) :
    analyze_missing_components rows deps env t₁ = analyze_missing_components rows deps env t₂ ∧
    (∀ (s3Csv : String → Except String (List MissingRow))
       (s3Json : String → Except String (List Component)) (mu du : Option String),
       mca_inner s3Csv s3Json env ⟨mu, du, some t₁⟩ =
         mca_inner s3Csv s3Json env ⟨mu, du, some t₂⟩) :=
  ⟨rfl, fun _ _ _ _ => rfl⟩

/-! ## Claim C1 -/

section ConcreteRatEvaluation

attribute [local semireducible] Rat.add Rat.mul Rat.inv Rat.sub

/-- C1 is refuted by the code: per-candidate scoring MODIFIES the shared
`missing_by_parent` table (line 538 aliases the stored list, line 545
extends it in place), so a candidate's score depends on which candidates
were scored before it.  Concretely, for the same snapshot content
(components `A→B`, `C→A`, `B` missing-parents table `{A↦[MA], B↦[MB]}`),
candidate `C` gets missing-priority count 3 and weighted score 8 when `A`
was scored before it, but count 2 and score 6 when it is scored first. -/
theorem C1_scoring_mutates_shared_state :
    candidateMissingPriorityOf c1RunFwd "C" = some 3 ∧
    candidateMissingPriorityOf c1RunRev "C" = some 2 ∧
    candidateScoreOf c1RunFwd "C" = some 8 ∧
    candidateScoreOf c1RunRev "C" = some 6 ∧
    candidateScoreOf c1RunFwd "A" = candidateScoreOf c1RunRev "A" := by
  refine ⟨by decide, by decide, by decide, by decide, by decide⟩

/-! ## Claim C3 -/

/-- C3 is refuted by the code: when the optional CSD (transaction table)
download fails, the handler RETURNS the warning payload immediately — the
analysis never runs and no entry-point ranking is produced (even though
the payload's own message reads "Proceeding with analysis without CSD
data").  The second half of the claim is true: a failing required
missing-components download produces a structured error payload. -/
theorem C3_csd_failure_skips_analysis :
    mdf_lambda_handler oracleNoParse oracleNoParse c3s3Json c3s3Missing c3s3CsdFail none c3Event =
      .ok ⟨"MinimalDependencyFinder", "findMinimalDependencies", .csdWarning "AccessDenied"⟩ ∧
    (∀ r : MdfResults, MdfPayload.csdWarning "AccessDenied" ≠ .results r) ∧
    mdf_lambda_handler oracleNoParse oracleNoParse c3s3Json c3s3MissingFail c3s3CsdOk none c3Event =
      .ok ⟨"MinimalDependencyFinder", "findMinimalDependencies",
        .downloadMissingFailed "NoSuchKey"⟩ := by
  refine ⟨rfl, ?_, rfl⟩
  intro r h
  cases h

end ConcreteRatEvaluation

/-! ## Claim C2 -/

theorem lambda_wrap_str_raises {P B : Type} (ag fn : String) (b64 jsonp : String → Option (EventData P)) (inner : P → Except String B) (mkErr : String → B) (s : String)
    (h1 : b64 s = none) (h2 : jsonp s = none) :
    lambda_wrap ag fn b64 jsonp inner mkErr (.str s) = .error .attributeError := by
  simp [lambda_wrap, decode_event, create_bedrock_response, h1, h2]

theorem lambda_wrap_obj_ok {P B : Type} (ag fn : String) (b64 jsonp : String → Option (EventData P)) (inner : P → Except String B) (mkErr : String → B) (d : EventData P) :
    ∃ r : BedrockResponse B, lambda_wrap ag fn b64 jsonp inner mkErr (.obj d) = .ok r := by
  cases h : inner d.params with
  | error m =>
    exact ⟨⟨d.actionGroup.getD ag, d.function.getD fn, mkErr m⟩,
      by simp [lambda_wrap, decode_event, create_bedrock_response, h]⟩
  | ok b =>
    exact ⟨⟨d.actionGroup.getD ag, d.function.getD fn, b⟩,
      by simp [lambda_wrap, decode_event, create_bedrock_response, h]⟩

/-- C2 is refuted by the code on malformed string events: each of the
three handlers wraps its body in `try/except`, but the `except` block
itself calls `event.get(...)` on the original event, which raises
`AttributeError` when the event is a string that parses neither as
base64-encoded JSON nor as JSON — the exception escapes to the caller.
For dict-shaped events the claim's positive half holds: whatever the
body does (succeed or raise), the handler returns a structured
response. -/
theorem C2_malformed_string_event_crashes_handlers (s : String) :
    (∀ (O : Type) (b64 jsonp : String → Option (EventData DaParams))
       (s3Json : String → Except String (List Component))
       (analyze : List Component → String → Bool → List String → Except String O),
       b64 s = none → jsonp s = none →
       da_lambda_handler b64 jsonp s3Json analyze (.str s) = .error .attributeError) ∧
    (∀ (b64 jsonp : String → Option (EventData McaParams))
       (s3Csv : String → Except String (List MissingRow))
       (s3Json : String → Except String (List Component)) (env : RiskEnv),
       b64 s = none → jsonp s = none →
       mca_lambda_handler b64 jsonp s3Csv s3Json env (.str s) = .error .attributeError) ∧
    (∀ (b64 jsonp : String → Option (EventData MdfParams))
       (s3Json : String → Except String (List Component))
       (s3CsvMissing : String → Except String (List MissingRow))
       (s3CsvCsd : String → Except String (List CsdRow)) (cfgEnv : Option EnvWeights),
       b64 s = none → jsonp s = none →
       mdf_lambda_handler b64 jsonp s3Json s3CsvMissing s3CsvCsd cfgEnv (.str s) =
         .error .attributeError) ∧
    (∀ (O : Type) (b64 jsonp : String → Option (EventData DaParams))
       (s3Json : String → Except String (List Component))
       (analyze : List Component → String → Bool → List String → Except String O)
       (d : EventData DaParams),
       ∃ r, da_lambda_handler b64 jsonp s3Json analyze (.obj d) = .ok r) ∧
    (∀ (b64 jsonp : String → Option (EventData McaParams))
       (s3Csv : String → Except String (List MissingRow))
       (s3Json : String → Except String (List Component)) (env : RiskEnv)
       (d : EventData McaParams),
       ∃ r, mca_lambda_handler b64 jsonp s3Csv s3Json env (.obj d) = .ok r) ∧
    (∀ (b64 jsonp : String → Option (EventData MdfParams))
       (s3Json : String → Except String (List Component))
       (s3CsvMissing : String → Except String (List MissingRow))
       (s3CsvCsd : String → Except String (List CsdRow)) (cfgEnv : Option EnvWeights)
       (d : EventData MdfParams),
       ∃ r, mdf_lambda_handler b64 jsonp s3Json s3CsvMissing s3CsvCsd cfgEnv (.obj d) = .ok r) := by
  refine ⟨?_, ?_, ?_, ?_, ?_, ?_⟩
  · intro O b64 jsonp s3Json analyze h1 h2
    exact lambda_wrap_str_raises _ _ b64 jsonp _ _ s h1 h2
  · intro b64 jsonp s3Csv s3Json env h1 h2
    exact lambda_wrap_str_raises _ _ b64 jsonp _ _ s h1 h2
  · intro b64 jsonp s3Json s3CsvMissing s3CsvCsd cfgEnv h1 h2
    exact lambda_wrap_str_raises _ _ b64 jsonp _ _ s h1 h2
  · intro O b64 jsonp s3Json analyze d
    exact lambda_wrap_obj_ok _ _ b64 jsonp _ _ d
  · intro b64 jsonp s3Csv s3Json env d
    exact lambda_wrap_obj_ok _ _ b64 jsonp _ _ d
  · intro b64 jsonp s3Json s3CsvMissing s3CsvCsd cfgEnv d
    exact lambda_wrap_obj_ok _ _ b64 jsonp _ _ d

/-- Witness for C2 at the concrete malformed event string `"###"` (not
valid base64-encoded JSON, not valid JSON) with concrete oracles: all
three handlers raise `AttributeError` instead of answering, and a
dict-shaped event gets a structured response. -/
theorem C2_malformed_string_event_witness :
    da_lambda_handler (O := Unit) oracleNoParse oracleNoParse (fun _ => .ok [])
      (fun _ _ _ _ => .ok ()) (.str "###") = .error .attributeError ∧
    mca_lambda_handler oracleNoParse oracleNoParse (fun _ => .ok []) (fun _ => .ok [])
      defaultRiskEnv (.str "###") = .error .attributeError ∧
    mdf_lambda_handler oracleNoParse oracleNoParse (fun _ => .ok []) (fun _ => .ok [])
      (fun _ => .ok []) none (.str "###") = .error .attributeError ∧
    (∃ r, mca_lambda_handler oracleNoParse oracleNoParse (fun _ => .ok []) (fun _ => .ok [])
      defaultRiskEnv (.obj ⟨none, none, ⟨none, none, none⟩⟩) = .ok r) := by
  have h := C2_malformed_string_event_crashes_handlers "###"
  exact ⟨h.1 Unit _ _ _ _ rfl rfl, h.2.1 _ _ _ _ _ rfl rfl, h.2.2.1 _ _ _ _ _ _ rfl rfl,
    h.2.2.2.2.1 _ _ _ _ _ _⟩

end DAT
